import Mathlib

/-!
Verification of the SEDAPAL microzone ETL pipeline against its specification.

The Python sources (src/limpieza_conexiones.py, src/limpieza_longitudes.py,
src/limpieza_proyectos.py, src/etl_sedapal.py, src/analytics/microzonas.py,
config/criterios.py) are embedded shallowly:

* pandas DataFrames become lists of typed row structures; a missing value
  (NaN / pd.NA / NaT) in a column becomes `none` of an `Option` type;
* Python floats are modelled by `ℚ` (exact arithmetic; the claims under
  study are algebraic, not about binary floating point);
* numpy / pandas rounding (`Series.round`) is round-half-to-even, modelled
  exactly on `ℚ`;
* operations that can raise in Python (for example evaluating the truth
  value of `pd.NA`) return `Except String`;
* `groupby(..., dropna=False)` keeps `none` as an ordinary grouping value,
  exactly as pandas groups NaN keys when `dropna=False`; `pivot_table`
  drops groups whose key contains a missing component (pandas default).

Grouped outputs are produced here in first-occurrence order of the keys
(pandas sorts group keys); no theorem below depends on row order of a
grouped result, only on membership and multiplicity.
-/

namespace Sedapal

/- The core rational operations are `@[irreducible]`; making them
semireducible lets `decide` evaluate concrete pipeline runs in the
elaborator (the kernel re-checks every such proof anyway). -/
attribute [local semireducible] Rat.add Rat.mul Rat.inv Rat.sub

/-! ## Shared text and number primitives (Column Normalizer) -/

/-- Collapse every run of whitespace into a single space, as the regex
substitution `\s+` → `" "` does in `_normalizar_cadenas` / `_normalizar_texto`. -/
def colapsarAux : List Char → List Char
  | [] => []
  | c :: resto =>
    if c.isWhitespace then ' ' :: colapsarAux (resto.dropWhile Char.isWhitespace)
    else c :: colapsarAux resto
termination_by l => l.length
decreasing_by
  · simp only [List.length_cons]
    exact Nat.lt_succ_of_le ((List.dropWhile_suffix _).sublist.length_le)
  · simp

/-- String form of `colapsarAux`. -/
def colapsarEspacios (s : String) : String := String.mk (colapsarAux s.toList)

/-- Keep only the decimal digits of a string (`str.replace(r"\D", "", regex=True)`). -/
def soloDigitos (s : String) : String := String.mk (s.toList.filter Char.isDigit)

/-- Left pad with zeros to the given width (`str.zfill`; the inputs it is
applied to are digit-only, so the sign handling of Python `zfill` is moot). -/
def zfill (ancho : Nat) (s : String) : String :=
  String.mk (List.replicate (ancho - s.toList.length) '0' ++ s.toList)

/-- Numeric value of a digit list, most significant first. -/
def valorDigitos (l : List Char) : ℚ :=
  l.foldl (fun acc c => acc * 10 + ((c.toNat - 48 : Nat) : ℚ)) 0

/-- Natural-number value of a digit list. -/
def valorNat (l : List Char) : Nat :=
  l.foldl (fun acc c => acc * 10 + (c.toNat - 48)) 0

/-- Model of `pandas.to_numeric(serie, errors="coerce")` on a single cell:
optional sign, then decimal digits with an optional fractional part.
Unparseable text coerces to a missing value.  (Scientific notation is not
exercised by any modelled input.) -/
def parseNumerico (s : String) : Option ℚ :=
  let t := s.trim
  let neg := t.startsWith "-"
  let cuerpo := if t.startsWith "-" || t.startsWith "+" then t.drop 1 else t
  match cuerpo.splitOn "." with
  | [entera] =>
    if entera.toList ≠ [] ∧ entera.toList.all Char.isDigit then
      some (if neg then -(valorDigitos entera.toList) else valorDigitos entera.toList)
    else none
  | [entera, frac] =>
    if (entera.toList ≠ [] ∨ frac.toList ≠ []) ∧ entera.toList.all Char.isDigit ∧
        frac.toList.all Char.isDigit then
      let v := valorDigitos entera.toList + valorDigitos frac.toList / (10 : ℚ) ^ frac.toList.length
      some (if neg then -v else v)
    else none
  | _ => none

/-- Round-half-to-even to an integer, the rounding used by
`numpy`/`pandas.Series.round`. -/
def redondearMedioPar (q : ℚ) : Int :=
  if q - Int.floor q < 1/2 then Int.floor q
  else if 1/2 < q - Int.floor q then Int.floor q + 1
  else if Int.floor q % 2 = 0 then Int.floor q else Int.floor q + 1

/-- Model of `Series.round(3)`. -/
def redondear3 (q : ℚ) : ℚ := (redondearMedioPar (q * 1000) : ℚ) / 1000

/-! ## Dates -/

/-- A calendar date, the model of a non-missing `pandas.Timestamp` cell. -/
structure Fecha where
  anio : Int
  mes : Nat
  dia : Nat
deriving DecidableEq, Repr

/-- Gregorian leap year. -/
def esBisiesto (a : Int) : Bool := (a % 4 == 0 && a % 100 != 0) || (a % 400 == 0)

/-- Days of the given month. -/
def diasEnMes (a : Int) (m : Nat) : Nat :=
  if m = 2 then (if esBisiesto a then 29 else 28)
  else if m = 4 ∨ m = 6 ∨ m = 9 ∨ m = 11 then 30
  else 31

/-- Numeric key `yyyymmdd` of a date, used for comparisons. -/
def claveFecha (f : Fecha) : Int := f.anio * 10000 + (f.mes : Int) * 100 + (f.dia : Int)

/-- Whether a calendar date is representable as a nanosecond `Timestamp`
(pandas coerces out-of-bounds dates to `NaT`). -/
def fechaRepresentable (f : Fecha) : Prop :=
  16770922 ≤ claveFecha f ∧ claveFecha f ≤ 22620411

instance (f : Fecha) : Decidable (fechaRepresentable f) := by
  unfold fechaRepresentable; infer_instance

/-- Model of `pd.to_datetime(valor, format="%Y%m%d", errors="coerce")` on one
cell: exactly eight digits forming a valid, representable calendar date. -/
def parseFecha8 (s : String) : Option Fecha :=
  let l := s.toList
  if l.length = 8 ∧ l.all Char.isDigit then
    let f : Fecha := ⟨(valorNat (l.take 4) : Int), valorNat ((l.drop 4).take 2), valorNat (l.drop 6)⟩
    if 1 ≤ f.mes ∧ f.mes ≤ 12 ∧ 1 ≤ f.dia ∧ f.dia ≤ diasEnMes f.anio f.mes ∧ fechaRepresentable f
    then some f else none
  else none

/-- Model of `pd.to_datetime(valor, format="%Y-%m-%d", errors="coerce")` on one
cell (strict ISO format used by the projects cleaner). -/
def parseFechaIso (s : String) : Option Fecha :=
  match s.toList.splitOn '-' with
  | [a, m, d] =>
    if a.length = 4 ∧ m.length = 2 ∧ d.length = 2 ∧
        a.all Char.isDigit ∧ m.all Char.isDigit ∧ d.all Char.isDigit then
      let f : Fecha := ⟨(valorNat a : Int), valorNat m, valorNat d⟩
      if 1 ≤ f.mes ∧ f.mes ≤ 12 ∧ 1 ≤ f.dia ∧ f.dia ≤ diasEnMes f.anio f.mes ∧ fechaRepresentable f
      then some f else none
    else none
  | _ => none

/-- Maximum of a list of dates (`fecha_corte: max` aggregation; pandas `max`
skips missing values, so the fold runs over the present ones). -/
def maximaFecha (l : List Fecha) : Option Fecha :=
  l.foldl (fun acc f => match acc with
    | none => some f
    | some g => some (if claveFecha g < claveFecha f then f else g)) none

/-! ## The microzone key and the criticality criteria -/

/-- The six-field microzone key `CLAVE_MICROZONA`.  Text components are plain
strings because every cleaner fills missing text with the empty string before
grouping; `ubigeo`, `anio`, `mes` stay optional. -/
structure Clave where
  ubigeo : Option String
  distrito : String
  gerenciaServicios : String
  equipoComercial : String
  anio : Option Int
  mes : Option Int
deriving DecidableEq, Repr

/-- The `CriteriosCriticidad` dataclass.  `percentilConexionesCritico` is
`none` when the stored Python float is NaN (`ℚ` has no NaN); the field
`peso_ratio` is embedded as `pesoRatioVal`. -/
structure CriteriosCriticidad where
  pesoRatioVal : ℚ
  pesoConexiones : ℚ
  percentilConexionesCritico : Option ℚ
  umbralCategoriaAlerta : ℚ
  umbralCategoriaCritica : ℚ
deriving DecidableEq, Repr

/-- The `__post_init__` normalisation of `CriteriosCriticidad`: weights are
clamped at zero and renormalised to sum 1 (0.5/0.5 when the clamped sum is
zero), the percentile reference is raised to at least 1 when it is a number
(`max(nan, 1.0)` is NaN in Python, so `none` passes through), and thresholds
are clamped to `[0,1]` and swapped when out of order. -/
def construirCriterios (pesoR pesoC : ℚ) (percentil : Option ℚ)
    (alerta critica : ℚ) : CriteriosCriticidad :=
  let validados := max pesoR 0 + max pesoC 0
  let pr := if validados = 0 then (1 : ℚ)/2 else max pesoR 0 / validados
  let pc := if validados = 0 then (1 : ℚ)/2 else max pesoC 0 / validados
  let an := max (min alerta 1) 0
  let cn := max (min critica 1) 0
  { pesoRatioVal := pr
    pesoConexiones := pc
    percentilConexionesCritico := percentil.map (fun q => max q 1)
    umbralCategoriaAlerta := if an > cn then cn else an
    umbralCategoriaCritica := if an > cn then an else cn }

/-- `criterios_por_defecto()`: the default criteria instance. -/
def criteriosPorDefecto : CriteriosCriticidad :=
  construirCriterios (6/10) (4/10) (some 15162) (3/10) (6/10)

/-- After construction the weights are each non-negative and sum to 1, for
any raw inputs whatsoever. -/
theorem pesos_construidos_normalizados (a b : ℚ) (p : Option ℚ) (ua uc : ℚ) :
    0 ≤ (construirCriterios a b p ua uc).pesoRatioVal ∧
    0 ≤ (construirCriterios a b p ua uc).pesoConexiones ∧
    (construirCriterios a b p ua uc).pesoRatioVal
      + (construirCriterios a b p ua uc).pesoConexiones = 1 := by
  unfold construirCriterios
  simp only
  by_cases h : max a 0 + max b 0 = 0
  · simp only [if_pos h]
    norm_num
  · have ha : (0 : ℚ) ≤ max a 0 := le_max_right _ _
    have hb : (0 : ℚ) ≤ max b 0 := le_max_right _ _
    have hs : 0 < max a 0 + max b 0 := lt_of_le_of_ne (by positivity) (Ne.symm h)
    refine ⟨?_, ?_, ?_⟩
    · simp only [if_neg h]; positivity
    · simp only [if_neg h]; positivity
    · simp only [if_neg h]; field_simp

/-- C6 (amended): for non-negative input weights that are not both zero the
stored weights sum to exactly 1 in exact (rational) arithmetic; when both
inputs are zero the stored weights are 0.5 and 0.5.  (In the program's
binary64 floats the stored sum can be one ulp away from 1.0 — see the
`pesosDoblePostInit` counterexample below.) -/
theorem criterios_pesos_suman_uno (a b : ℚ) (p : Option ℚ) (ua uc : ℚ)
    (ha : 0 ≤ a) (hb : 0 ≤ b) (hab : ¬(a = 0 ∧ b = 0)) :
    (construirCriterios a b p ua uc).pesoRatioVal
      + (construirCriterios a b p ua uc).pesoConexiones = 1 ∧
    (∀ p' ua' uc', (construirCriterios 0 0 p' ua' uc').pesoRatioVal = 1/2 ∧
      (construirCriterios 0 0 p' ua' uc').pesoConexiones = 1/2) := by
  refine ⟨(pesos_construidos_normalizados a b p ua uc).2.2, ?_⟩
  intro p' ua' uc'
  unfold construirCriterios
  simp

/-- Witness for C6 at concrete weights 0.6 / 0.4. -/
theorem criterios_pesos_suman_uno_witness :
    (construirCriterios (6/10) (4/10) (some 15162) (3/10) (6/10)).pesoRatioVal
      + (construirCriterios (6/10) (4/10) (some 15162) (3/10) (6/10)).pesoConexiones = 1 :=
  (criterios_pesos_suman_uno (6/10) (4/10) (some 15162) (3/10) (6/10)
    (by norm_num) (by norm_num) (by norm_num)).1

/-! ### Binary64 model of the weight renormalisation (claim C6)

`__post_init__` runs on Python floats (IEEE binary64), so each `+` and `/`
rounds to 53 significant bits, nearest with ties to even.  The model below
performs that rounding exactly on `ℚ` for the normal range (the weight
values at hand are all normal, far from overflow and underflow). -/

/-- Floor of the base-2 logarithm, fuel-bounded structural recursion (fuel
256 covers every magnitude arising here). -/
def log2Fuel : Nat → Nat → Nat
  | 0, _ => 0
  | fuel + 1, n => if n ≤ 1 then 0 else log2Fuel fuel (n / 2) + 1

/-- Floor of the base-2 logarithm of a positive natural number. -/
def bitsNat (n : Nat) : Nat := log2Fuel 256 n

/-- The rational value `2 ^ e` for an integer exponent. -/
def potenciaDos (e : Int) : ℚ :=
  if 0 ≤ e then (((2 : Nat) ^ e.toNat : Nat) : ℚ)
  else 1 / (((2 : Nat) ^ (-e).toNat : Nat) : ℚ)

/-- Round a positive rational to the nearest binary64 value (53-bit
mantissa, ties to even). -/
def redondearDoblePos (q : ℚ) : ℚ :=
  let e0 : Int := (bitsNat q.num.natAbs : Int) - (bitsNat q.den : Int)
  let e : Int :=
    if q < potenciaDos e0 then e0 - 1
    else if q < potenciaDos (e0 + 1) then e0
    else e0 + 1
  let k : Int := 52 - e
  ((redondearMedioPar (q * potenciaDos k) : Int) : ℚ) * potenciaDos (-k)

/-- Round a rational to the nearest binary64 value. -/
def redondearDoble (q : ℚ) : ℚ :=
  if q = 0 then 0
  else if 0 < q then redondearDoblePos q
  else -(redondearDoblePos (-q))

/-- Binary64 addition. -/
def sumaDoble (a b : ℚ) : ℚ := redondearDoble (a + b)

/-- Binary64 division. -/
def divDoble (a b : ℚ) : ℚ := redondearDoble (a / b)

/-- The weight branch of `__post_init__` as the program executes it, in
binary64: `pesos_validados = max(a, 0.0) + max(b, 0.0)` (the `max` is
exact, the `+` rounds), then each weight is the rounded quotient. -/
def pesosDoblePostInit (a b : ℚ) : ℚ × ℚ :=
  let validados := sumaDoble (max a 0) (max b 0)
  if validados = 0 then (1/2, 1/2)
  else (divDoble (max a 0) validados, divDoble (max b 0) validados)

/-- The binary64 value of the Python literal `0.99`. -/
def doble099 : ℚ := 4458563631096791 / 4503599627370496

/-- The binary64 value of the Python literal `0.90`. -/
def doble090 : ℚ := 8106479329266893 / 9007199254740992

/-- C6 counterexample: for the non-negative, not-both-zero inputs 0.99 and
0.90 the renormalised binary64 weights are the doubles
`0.99/1.89` and `0.90/1.89` shown below, and their float sum is
`9007199254740991 / 2^53`, one ulp below 1 — so the stored
`peso_ratio + peso_conexiones` does not equal 1.0 exactly in the program. -/
theorem pesos_dobles_no_suman_uno :
    pesosDoblePostInit doble099 doble090
      = (294878547030211 / 562949953421312, 4289142502257615 / 9007199254740992) ∧
    sumaDoble (pesosDoblePostInit doble099 doble090).1
        (pesosDoblePostInit doble099 doble090).2
      = 9007199254740991 / 9007199254740992 ∧
    sumaDoble (pesosDoblePostInit doble099 doble090).1
        (pesosDoblePostInit doble099 doble090).2 ≠ 1 := by
  refine ⟨by decide, by decide, by decide⟩

/-! ## Connections cleaner (src/limpieza_conexiones.py) -/

/-- A raw connections row as loaded by `cargar_conexiones` (`dtype=str`: every
cell is a string or missing).  `anio`/`mes` are optional columns; when the CSV
lacks them every cell is `none`, exactly what `_normalizar_componentes_temporales`
creates. -/
structure FilaConexCruda where
  gerenciaServicios : Option String
  equipoComercial : Option String
  departamento : Option String
  provincia : Option String
  distrito : Option String
  ubigeo : Option String
  tarifa : Option String
  conexionesAgua : Option String
  conexionesAlcantarillado : Option String
  fechaCorte : Option String
  anio : Option String
  mes : Option String
deriving DecidableEq, Repr

/-- One cell of `_normalizar_cadenas` (both call sites use the default
`preservar_espacios=False`): `fillna("")`, `str.strip()`, `str.upper()`. -/
def normalizarTextoRecortado (v : Option String) : String :=
  ((v.getD "").trim).toUpper

/-- The closed tariff categories of `_normalizar_tarifa`. -/
def tarifasValidas : List String :=
  ["SOCIAL", "DOMESTICO", "COMERCIAL", "INDUSTRIAL", "ESTATAL"]

/-- One cell of `_normalizar_tarifa`: strip/uppercase, then keep only the
known categories, anything else becomes `"OTRAS"`. -/
def normalizarTarifaValor (v : Option String) : String :=
  let s := ((v.getD "").trim).toUpper
  if s ∈ tarifasValidas then s else "OTRAS"

/-- One cell of `_sanear_ubigeo` (shared verbatim by the three cleaners):
`fillna("")`, drop non-digits, `zfill(6)`, then keep the result only when it
fully matches six digits. -/
def sanearUbigeoValor (v : Option String) : Option String :=
  let relleno := zfill 6 (soloDigitos (v.getD ""))
  if relleno.toList.length = 6 ∧ relleno.toList.all Char.isDigit
  then some relleno else none

/-- One cell of `_normalizar_valores_enteros`: `to_numeric(errors="coerce")`,
optional lower clip, `fillna(0)`, `round().astype("Int64")`. -/
def normalizarEnteroValor (minimo : Option ℚ) (v : Option String) : Int :=
  let n := v.bind parseNumerico
  let acotado := match minimo with
    | some m => n.map (fun q => max q m)
    | none => n
  redondearMedioPar (acotado.getD 0)

/-- One cell of `_normalizar_componentes_temporales`: numeric coercion, the
`between` range filter, backfill from the cutoff date, `round().astype("Int64")`
(`none` when both the cell and the backfill are missing). -/
def componenteTemporal (limInf limSup : ℚ) (crudo : Option String)
    (respaldo : Option Int) : Option Int :=
  let filtrado := (crudo.bind parseNumerico).bind
    (fun q => if limInf ≤ q ∧ q ≤ limSup then some q else none)
  match filtrado with
  | some q => some (redondearMedioPar q)
  | none => respaldo

/-- `_obtener_moda` on a column of non-missing strings: the most frequent
value, ties broken by the smallest value (pandas `mode()` sorts and `iloc[0]`
takes the first), `none` on an empty column. -/
def obtenerModa (l : List String) : Option String :=
  let m := (l.map (fun v => l.count v)).foldl max 0
  (l.filter (fun v => l.count v = m)).foldl
    (fun acc v => match acc with
      | none => some v
      | some w => some (if v < w then v else w)) none

/-- A connections row after all the per-column normalisation steps of
`limpiar_conexiones`, immediately before `_agrupar_por_microzona`. -/
structure FilaConexNormalizada where
  clave : Clave
  departamento : String
  provincia : String
  tarifa : String
  conexionesAgua : Int
  conexionesAlcantarillado : Int
  fechaCorte : Option Fecha
deriving DecidableEq, Repr

/-- The per-row composition of the normalisation helpers called by
`limpiar_conexiones` (each pandas helper is element-wise).  `_parsear_fecha_corte`
does `astype(str)` first, so a missing cell becomes the unparseable string
`"nan"`; both roads lead to a missing date. -/
def normalizarFilaConexiones (f : FilaConexCruda) : FilaConexNormalizada :=
  let fecha := f.fechaCorte.bind parseFecha8
  { clave :=
      { ubigeo := sanearUbigeoValor f.ubigeo
        distrito := normalizarTextoRecortado f.distrito
        gerenciaServicios := normalizarTextoRecortado f.gerenciaServicios
        equipoComercial := normalizarTextoRecortado f.equipoComercial
        anio := componenteTemporal 2000 2100 f.anio (fecha.map (fun g => g.anio))
        mes := componenteTemporal 1 12 f.mes (fecha.map (fun g => (g.mes : Int))) }
    departamento := normalizarTextoRecortado f.departamento
    provincia := normalizarTextoRecortado f.provincia
    tarifa := normalizarTarifaValor f.tarifa
    conexionesAgua := normalizarEnteroValor (some 0) f.conexionesAgua
    conexionesAlcantarillado := normalizarEnteroValor (some 0) f.conexionesAlcantarillado
    fechaCorte := fecha }

/-- All per-column normalisation of `limpiar_conexiones` before grouping. -/
def normalizarConexiones (df : List FilaConexCruda) : List FilaConexNormalizada :=
  df.map normalizarFilaConexiones

/-- An aggregated connections row, one per microzone key
(`_agrupar_por_microzona` output).  The mode columns are optional because
`_obtener_moda` yields `pd.NA` on an empty column. -/
structure FilaConexLimpia where
  clave : Clave
  conexionesAgua : Int
  conexionesAlcantarillado : Int
  fechaCorte : Option Fecha
  departamento : Option String
  provincia : Option String
  tarifaPredominante : Option String
deriving DecidableEq, Repr

/-- The aggregated row of one microzone key: summed connection counts,
maximal cutoff date, modes of department/province/tariff. -/
def filaAgrupada (df : List FilaConexNormalizada) (k : Clave) : FilaConexLimpia :=
  let grupo := df.filter (fun f => f.clave = k)
  { clave := k
    conexionesAgua := (grupo.map (fun f => f.conexionesAgua)).sum
    conexionesAlcantarillado := (grupo.map (fun f => f.conexionesAlcantarillado)).sum
    fechaCorte := maximaFecha (grupo.filterMap (fun f => f.fechaCorte))
    departamento := obtenerModa (grupo.map (fun f => f.departamento))
    provincia := obtenerModa (grupo.map (fun f => f.provincia))
    tarifaPredominante := obtenerModa (grupo.map (fun f => f.tarifa)) }

/-- `_agrupar_por_microzona`: `groupby(CLAVE_MICROZONA, dropna=False)` — one
output row per distinct key value, missing key components included as
ordinary values.  (Rows are emitted here in first-occurrence key order; no
theorem depends on the order.) -/
def agruparPorMicrozona (df : List FilaConexNormalizada) : List FilaConexLimpia :=
  ((df.map (fun f => f.clave)).dedup).map (filaAgrupada df)

/-- `limpiar_conexiones` after its schema validation (the typed row carries
all required columns by construction): normalise, then aggregate. -/
def limpiarConexiones (df : List FilaConexCruda) : List FilaConexLimpia :=
  agruparPorMicrozona (normalizarConexiones df)

/-! ### List lemmas for grouped tables -/

/-- Filtering a duplicate-free list for one value yields that value alone,
or nothing. -/
theorem filter_eq_of_nodup {α : Type} [DecidableEq α] (l : List α) (k : α)
    (h : l.Nodup) : l.filter (fun x => x = k) = if k ∈ l then [k] else [] := by
  induction l with
  | nil => simp
  | cons a resto ih =>
    rcases List.nodup_cons.mp h with ⟨hna, hresto⟩
    by_cases hak : a = k
    · subst hak
      simp [List.filter_cons, ih hresto, if_neg hna]
    · have : (k ∈ a :: resto) = (k ∈ resto) := by
        simp [List.mem_cons, Ne.symm hak]
      simp [List.filter_cons, hak, ih hresto, this]

/-- Filtering after a map is mapping after filtering on the composition. -/
theorem filter_of_map {α β : Type} (l : List α) (f : α → β) (p : β → Bool) :
    (l.map f).filter p = (l.filter (fun x => p (f x))).map f := by
  induction l with
  | nil => simp
  | cons a resto ih =>
    by_cases h : p (f a) <;> simp [List.filter_cons, h, ih]

/-- The rows of a grouped connections table that carry a given key: exactly
the aggregate of that key when the key occurs, nothing otherwise. -/
theorem agrupar_filtrado (df : List FilaConexNormalizada) (k : Clave) :
    (agruparPorMicrozona df).filter (fun f => f.clave = k)
      = if k ∈ df.map (fun f => f.clave) then [filaAgrupada df k] else [] := by
  unfold agruparPorMicrozona
  rw [filter_of_map]
  have hpred : ∀ c : Clave, (decide ((filaAgrupada df c).clave = k)) = decide (c = k) := by
    intro c; rfl
  have : ((df.map (fun f => f.clave)).dedup).filter
      (fun c => decide ((filaAgrupada df c).clave = k))
      = ((df.map (fun f => f.clave)).dedup).filter (fun c => c = k) := by
    apply List.filter_congr
    intro c _
    exact hpred c
  rw [this, filter_eq_of_nodup _ _ (List.nodup_dedup _)]
  by_cases hk : k ∈ df.map (fun f => f.clave)
  · rw [if_pos (List.mem_dedup.mpr hk), if_pos hk]; rfl
  · rw [if_neg (fun hmem => hk (List.mem_dedup.mp hmem)), if_neg hk]; rfl

/-- C3: for every raw connections table and every microzone key of the
normalised table, the aggregated table has exactly one row for that key and
its `conexiones_agua` equals the sum of the normalised `conexiones_agua`
values over all rows sharing the key (and no row otherwise). -/
theorem conexiones_agua_suma_por_clave (df : List FilaConexCruda) (k : Clave) :
    ((limpiarConexiones df).filter (fun f => f.clave = k)).map
        (fun f => f.conexionesAgua)
      = if k ∈ (normalizarConexiones df).map (fun f => f.clave) then
          [(((normalizarConexiones df).filter (fun f => f.clave = k)).map
              (fun f => f.conexionesAgua)).sum]
        else [] := by
  unfold limpiarConexiones
  rw [agrupar_filtrado]
  by_cases hk : k ∈ (normalizarConexiones df).map (fun f => f.clave)
  · rw [if_pos hk, if_pos hk]; rfl
  · rw [if_neg hk, if_neg hk]; rfl

/-! ### Claim C7: geocode normalisation -/

/-- C7 counterexample: an input with no digit content at all (garbage text or
a missing cell) is not mapped to a missing value — `_sanear_ubigeo` zero-pads
the empty digit string and `"000000"` fully matches six digits, so a
zero-padded garbage code is produced. -/
theorem sanear_ubigeo_relleno_basura :
    sanearUbigeoValor (some "abc") = some "000000" ∧
    sanearUbigeoValor none = some "000000" := by
  constructor <;> rfl

/-- C7 (amended): the output of `_sanear_ubigeo` is always either missing or
a string of exactly six digits; inputs with more than six digits of content
become missing; inputs with at most six digits of content — including zero
digits — become the left-zero-padded six-digit string (so digit-free garbage
becomes `"000000"`, not missing). -/
theorem sanear_ubigeo_forma (v : Option String) :
    sanearUbigeoValor v
      = (if 6 < (soloDigitos (v.getD "")).toList.length then none
         else some (zfill 6 (soloDigitos (v.getD "")))) ∧
    (∀ s, sanearUbigeoValor v = some s →
      s.toList.length = 6 ∧ s.toList.all Char.isDigit = true) := by
  have hdig : (soloDigitos (v.getD "")).toList.all Char.isDigit = true := by
    have hfil : (soloDigitos (v.getD "")).toList
        = (v.getD "").toList.filter Char.isDigit := rfl
    rw [hfil, List.all_eq_true]
    intro c hc
    exact (List.mem_filter.mp hc).2
  have hz : (zfill 6 (soloDigitos (v.getD ""))).toList
      = List.replicate (6 - (soloDigitos (v.getD "")).toList.length) '0'
          ++ (soloDigitos (v.getD "")).toList := rfl
  constructor
  · unfold sanearUbigeoValor
    by_cases hlen : 6 < (soloDigitos (v.getD "")).toList.length
    · have hne : ¬((zfill 6 (soloDigitos (v.getD ""))).toList.length = 6 ∧
          (zfill 6 (soloDigitos (v.getD ""))).toList.all Char.isDigit = true) := by
        intro hcond
        have h1 := hcond.1
        rw [hz, List.length_append, List.length_replicate] at h1
        omega
      rw [if_neg hne, if_pos hlen]
    · have hlen6 : (zfill 6 (soloDigitos (v.getD ""))).toList.length = 6 := by
        rw [hz, List.length_append, List.length_replicate]
        omega
      have htodos : (zfill 6 (soloDigitos (v.getD ""))).toList.all Char.isDigit = true := by
        rw [hz, List.all_append, Bool.and_eq_true]
        refine And.intro ?_ hdig
        rw [List.all_eq_true]
        intro c hc
        rw [List.eq_of_mem_replicate hc]
        rfl
      rw [if_pos ⟨hlen6, htodos⟩, if_neg hlen]
  · intro s hs
    unfold sanearUbigeoValor at hs
    by_cases hcond : (zfill 6 (soloDigitos (v.getD ""))).toList.length = 6 ∧
        (zfill 6 (soloDigitos (v.getD ""))).toList.all Char.isDigit = true
    · rw [if_pos hcond] at hs
      cases hs
      exact hcond
    · rw [if_neg hcond] at hs
      cases hs

/-- Witness for the amended C7 at a seven-digit input (becomes missing) and
at an input with exactly six digits amid garbage (kept, six digits long). -/
theorem sanear_ubigeo_forma_witness :
    sanearUbigeoValor (some "1234567") = none ∧
    ("150132".toList.length = 6 ∧ "150132".toList.all Char.isDigit = true) := by
  constructor
  · have h := (sanear_ubigeo_forma (some "1234567")).1
    rw [h]
    decide
  · exact (sanear_ubigeo_forma (some "x150132y")).2 "150132" (by decide)

/-! ## Network-length cleaner (src/limpieza_longitudes.py) -/

/-- A raw network-length row (`cargar_longitudes`, `dtype=str`). -/
structure FilaLongitudCruda where
  gerenciaServicios : Option String
  equipoComercial : Option String
  departamento : Option String
  provincia : Option String
  distrito : Option String
  ubigeo : Option String
  clase : Option String
  redPrimaria : Option String
  redSecundaria : Option String
  anio : Option String
  mes : Option String
deriving DecidableEq, Repr

/-- One cell of `_normalizar_texto` with `recortar=False` (default):
`fillna("")`, `str.upper()`, collapse whitespace runs — no trim. -/
def normalizarTextoColapsado (v : Option String) : String :=
  colapsarEspacios ((v.getD "").toUpper)

/-- One cell of `_normalizar_texto` with `recortar=True`: `fillna("")`,
`str.upper()`, `str.strip()`. -/
def normalizarTextoMayusculaRecorte (v : Option String) : String :=
  ((v.getD "").toUpper).trim

/-- The valid network classes `CLASES_VALIDAS`. -/
def clasesValidas : List String := ["AGUA", "DESAGUE"]

/-- The class column after `limpiar_longitudes` lines 56-59: strip/uppercase,
values outside `CLASES_VALIDAS` become missing. -/
def normalizarClaseValor (v : Option String) : Option String :=
  let s := ((v.getD "").trim).toUpper
  if s ∈ clasesValidas then some s else none

/-- One cell of `_normalizar_flotantes`: `to_numeric(errors="coerce")`,
optional lower clip, `fillna(0.0)`. -/
def normalizarFlotanteValor (minimo : Option ℚ) (v : Option String) : ℚ :=
  let n := v.bind parseNumerico
  let acotado := match minimo with
    | some m => n.map (fun q => max q m)
    | none => n
  acotado.getD 0

/-- A length row after the per-column normalisation of `limpiar_longitudes`,
immediately before `_construir_resumen`. -/
structure FilaLongitudNormalizada where
  clave : Clave
  departamento : String
  provincia : String
  clase : Option String
  redPrimaria : ℚ
  redSecundaria : ℚ
deriving DecidableEq, Repr

/-- The per-row normalisation of `limpiar_longitudes` (gerencia/equipo use
the collapse branch, departamento/provincia/distrito the trim branch;
`_asegurar_componentes_temporales` has no date backfill in this source). -/
def normalizarFilaLongitud (f : FilaLongitudCruda) : FilaLongitudNormalizada :=
  { clave :=
      { ubigeo := sanearUbigeoValor f.ubigeo
        distrito := normalizarTextoMayusculaRecorte f.distrito
        gerenciaServicios := normalizarTextoColapsado f.gerenciaServicios
        equipoComercial := normalizarTextoColapsado f.equipoComercial
        anio := componenteTemporal 2000 2100 f.anio none
        mes := componenteTemporal 1 12 f.mes none }
    departamento := normalizarTextoMayusculaRecorte f.departamento
    provincia := normalizarTextoMayusculaRecorte f.provincia
    clase := normalizarClaseValor f.clase
    redPrimaria := normalizarFlotanteValor (some 0) f.redPrimaria
    redSecundaria := normalizarFlotanteValor (some 0) f.redSecundaria }

/-- One row of the intermediate `agrupado` table of `_construir_resumen`:
`groupby([*CLAVE_MICROZONA, "clase"], dropna=False)` summing both length
components. -/
structure FilaLongitudPar where
  clave : Clave
  clase : Option String
  redPrimaria : ℚ
  redSecundaria : ℚ
deriving DecidableEq, Repr

/-- The first `groupby` of `_construir_resumen` (`dropna=False`: missing key
or class values group as ordinary values). -/
def agruparLongitudPorClaveClase (df : List FilaLongitudNormalizada) :
    List FilaLongitudPar :=
  ((df.map (fun f => (f.clave, f.clase))).dedup).map (fun par =>
    { clave := par.1
      clase := par.2
      redPrimaria := ((df.filter (fun f => (f.clave, f.clase) = par)).map
        (fun f => f.redPrimaria)).sum
      redSecundaria := ((df.filter (fun f => (f.clave, f.clase) = par)).map
        (fun f => f.redSecundaria)).sum })

/-- Whether a microzone key has no missing component.  `pivot_table` groups
with the pandas default `dropna=True`, so any row whose key tuple contains a
missing `ubigeo`, `anio` or `mes` (the text components are never missing
after normalisation) is dropped from the pivot. -/
def claveCompleta (k : Clave) : Bool :=
  k.ubigeo.isSome && k.anio.isSome && k.mes.isSome

/-- One row of the `_construir_resumen` output: the pivot by class plus the
derived totals per class. -/
structure FilaLongitudResumen where
  clave : Clave
  redPrimariaAgua : ℚ
  redSecundariaAgua : ℚ
  redPrimariaDesague : ℚ
  redSecundariaDesague : ℚ
  longitudTotalAgua : ℚ
  longitudTotalDesague : ℚ
deriving DecidableEq, Repr

/-- One pivot cell: the summed value of the (key, class) group, 0 when the
combination is absent (`fill_value=0.0`; the intermediate `agrupado` table
has at most one row per combination, and `aggfunc="mean"` of one value is
that value). -/
def celdaPivote (visibles : List FilaLongitudPar) (k : Clave) (c : String)
    (valor : FilaLongitudPar → ℚ) : ℚ :=
  ((visibles.filter (fun f => f.clave = k ∧ f.clase = some c)).map valor).sum

/-- The groups that survive the pivot of `_construir_resumen`: pandas
`pivot_table` silently drops any group whose key tuple has a missing
component or whose class is missing. -/
def longitudesVisibles (df : List FilaLongitudNormalizada) : List FilaLongitudPar :=
  (agruparLongitudPorClaveClase df).filter
    (fun f => claveCompleta f.clave && f.clase.isSome)

/-- One output row of `_construir_resumen` for a surviving key. -/
def filaResumenDeClave (df : List FilaLongitudNormalizada) (k : Clave) :
    FilaLongitudResumen :=
  let rpA := celdaPivote (longitudesVisibles df) k "AGUA" (fun f => f.redPrimaria)
  let rsA := celdaPivote (longitudesVisibles df) k "AGUA" (fun f => f.redSecundaria)
  let rpD := celdaPivote (longitudesVisibles df) k "DESAGUE" (fun f => f.redPrimaria)
  let rsD := celdaPivote (longitudesVisibles df) k "DESAGUE" (fun f => f.redSecundaria)
  { clave := k
    redPrimariaAgua := rpA
    redSecundariaAgua := rsA
    redPrimariaDesague := rpD
    redSecundariaDesague := rsD
    longitudTotalAgua := rpA + rsA
    longitudTotalDesague := rpD + rsD }

/-- `_construir_resumen`: group by (key, class), pivot the class into
columns (dropping groups whose key tuple has a missing component or whose
class is missing — pandas `pivot_table` keeps neither), and add
`longitud_total_<clase> = red_primaria_<clase> + red_secundaria_<clase>`. -/
def construirResumen (df : List FilaLongitudNormalizada) : List FilaLongitudResumen :=
  (((longitudesVisibles df).map (fun f => f.clave)).dedup).map (filaResumenDeClave df)

/-- `limpiar_longitudes`: per-column normalisation, then the summary. -/
def limpiarLongitudes (df : List FilaLongitudCruda) : List FilaLongitudResumen :=
  construirResumen (df.map normalizarFilaLongitud)

/-! ## Projects cleaner (src/limpieza_proyectos.py) -/

/-- A raw project row (`cargar_proyectos`, `dtype=str`).  `anio`/`mes` are
not required columns; when absent every cell is `none`, exactly what
`_completar_componentes_temporales` creates; likewise
`gerencia_servicios`/`equipo_comercial` when tolerated as missing. -/
structure FilaProyectoCruda where
  gerenciaServicios : Option String
  equipoComercial : Option String
  departamento : Option String
  provincia : Option String
  distrito : Option String
  ubigeo : Option String
  nombreProyecto : Option String
  etapa : Option String
  avanceFisico : Option String
  fechaInicio : Option String
  fechaFin : Option String
  fechaCorte : Option String
  costoTotal : Option String
  contratistaConsultor : Option String
  anio : Option String
  mes : Option String
deriving DecidableEq, Repr

/-- One cell of the projects `_normalizar_texto`: `fillna("")`,
`str.strip()`, `str.upper()`, collapse whitespace. -/
def normalizarTextoProyecto (v : Option String) : String :=
  colapsarEspacios (((v.getD "").trim).toUpper)

/-- Characters kept by the project-name regex `[^\w\sÁÉÍÓÚÑÜ-]` → `" "`
(`\w` is unicode-aware on Python strings, so the accented lowercase letters
are word characters too; `String.toUpper` in this model, like the claims,
only exercises ASCII case). -/
def caracterPermitidoNombre (c : Char) : Bool :=
  c.isAlphanum || c = '_' || c.isWhitespace || c = '-' ||
    c ∈ ['Á', 'É', 'Í', 'Ó', 'Ú', 'Ñ', 'Ü', 'á', 'é', 'í', 'ó', 'ú', 'ñ', 'ü']

/-- One cell of `_normalizar_nombre_proyecto`: replace disallowed characters
by spaces, uppercase, collapse whitespace, strip. -/
def normalizarNombreValor (v : Option String) : String :=
  let reemplazado := String.mk ((v.getD "").toList.map
    (fun c => if caracterPermitidoNombre c then c else ' '))
  (colapsarEspacios reemplazado.toUpper).trim

/-- One cell of `_normalizar_contratista`: latin-1 encode with
`errors="ignore"` drops characters above U+00FF, then uppercase and strip. -/
def normalizarContratistaValor (v : Option String) : String :=
  ((String.mk ((v.getD "").toList.filter (fun c => c.toNat ≤ 255))).toUpper).trim

/-- The canonical stage table `ETAPAS_CANONICAS`. -/
def etapasCanonicas : List (String × String) :=
  [("EXPEDIENTE TÉCNICO", "EXPEDIENTE TECNICO"),
   ("EXPEDIENTE TECNICO", "EXPEDIENTE TECNICO"),
   ("OBRA", "OBRA"),
   ("EJECUCION", "OBRA"),
   ("LIQUIDACION", "LIQUIDACION"),
   ("CERRADO", "CERRADO"),
   ("PARALIZADO", "PARALIZADO"),
   ("ESTUDIO DEFINITIVO", "EXPEDIENTE TECNICO")]

/-- One cell of `_normalizar_etapas`: `fillna("")`, uppercase, strip, map
through the canonical table, unmapped values become `"SIN ETAPA"`. -/
def normalizarEtapaValor (v : Option String) : String :=
  let s := ((v.getD "").toUpper).trim
  match etapasCanonicas.find? (fun par => par.1 = s) with
  | some par => par.2
  | none => "SIN ETAPA"

/-- One cell of `_normalizar_avance`: comma decimal separator, numeric
coercion, clip to `[0,100]`, `fillna(0.0)`. -/
def normalizarAvanceValor (v : Option String) : ℚ :=
  let n := parseNumerico ((v.getD "").replace "," ".")
  (n.map (fun q => min (max q 0) 100)).getD 0

/-- One cell of `_normalizar_costo`: strip everything outside `[\d,.-]`,
treat the comma as a decimal point, coerce, `fillna(0.0)`. -/
def normalizarCostoValor (v : Option String) : ℚ :=
  let limpio := String.mk ((v.getD "").toList.filter
    (fun c => c.isDigit || c = ',' || c = '.' || c = '-'))
  (parseNumerico (limpio.replace "," ".")).getD 0

/-- One cell of `_parsear_fechas`: `astype(str).str.strip()` then strict
ISO parsing (a missing cell stringifies to unparseable `"nan"`). -/
def parsearFechaProyecto (v : Option String) : Option Fecha :=
  v.bind (fun s => parseFechaIso s.trim)

/-- A cleaned project row (`limpiar_proyectos` output: row-level detail,
one row per exploded district, no aggregation). -/
structure FilaProyectoLimpio where
  clave : Clave
  departamento : String
  provincia : String
  nombreProyecto : String
  etapa : String
  avanceFisico : ℚ
  costoTotal : ℚ
  fechaInicio : Option Fecha
  fechaFin : Option Fecha
  fechaCorte : Option Fecha
  contratistaConsultor : String
deriving DecidableEq, Repr

/-- The in-place text normalisation preceding the district explosion:
`_normalizar_texto` on the four plain text columns, and the district
upper/collapse plus `" Y "` → `"/"` rewriting of `_normalizar_distritos`
lines 132-139. -/
def prepararProyectos (df : List FilaProyectoCruda) : List FilaProyectoCruda :=
  df.map (fun f =>
    { f with
      gerenciaServicios := some (normalizarTextoProyecto f.gerenciaServicios)
      equipoComercial := some (normalizarTextoProyecto f.equipoComercial)
      departamento := some (normalizarTextoProyecto f.departamento)
      provincia := some (normalizarTextoProyecto f.provincia)
      distrito := some ((colapsarEspacios ((f.distrito.getD "").toUpper)).replace " Y " "/") })

/-- The `split("/")` + `explode` of `_normalizar_distritos`: one output row
per district value (an empty district splits into one empty value, keeping
the row). -/
def explotarDistritos (df : List FilaProyectoCruda) : List FilaProyectoCruda :=
  df.flatMap (fun f =>
    ((f.distrito.getD "").splitOn "/").map (fun d => { f with distrito := some d }))

/-- The trailing `str.strip()` on the exploded district column. -/
def recortarDistritos (df : List FilaProyectoCruda) : List FilaProyectoCruda :=
  df.map (fun f => { f with distrito := f.distrito.map (fun d => d.trim) })

/-- The per-column steps of `limpiar_proyectos` after the district
explosion: ubigeo, project name, contractor, stage, progress, cost, dates
and the year/month backfill from the cutoff date. -/
def terminarProyectos (df : List FilaProyectoCruda) : List FilaProyectoLimpio :=
  df.map (fun f =>
    let fechaCorte := parsearFechaProyecto f.fechaCorte
    { clave :=
        { ubigeo := sanearUbigeoValor f.ubigeo
          distrito := f.distrito.getD ""
          gerenciaServicios := f.gerenciaServicios.getD ""
          equipoComercial := f.equipoComercial.getD ""
          anio := componenteTemporal 2000 2100 f.anio (fechaCorte.map (fun g => g.anio))
          mes := componenteTemporal 1 12 f.mes (fechaCorte.map (fun g => (g.mes : Int))) }
      departamento := f.departamento.getD ""
      provincia := f.provincia.getD ""
      nombreProyecto := normalizarNombreValor f.nombreProyecto
      etapa := normalizarEtapaValor f.etapa
      avanceFisico := normalizarAvanceValor f.avanceFisico
      costoTotal := normalizarCostoValor f.costoTotal
      fechaInicio := parsearFechaProyecto f.fechaInicio
      fechaFin := parsearFechaProyecto f.fechaFin
      fechaCorte := fechaCorte
      contratistaConsultor := normalizarContratistaValor f.contratistaConsultor })

/-- `limpiar_proyectos`: text preparation, district explosion, then the
remaining per-column normalisation. -/
def limpiarProyectos (df : List FilaProyectoCruda) : List FilaProyectoLimpio :=
  terminarProyectos (recortarDistritos (explotarDistritos (prepararProyectos df)))

/-! ## Project aggregation (`_agrupar_proyectos`, src/etl_sedapal.py) -/

/-- One row of the `_agrupar_proyectos` output. -/
structure FilaProyectoAgrupado where
  clave : Clave
  conteoProyectosActivos : Int
  avancePromedioProyectos : ℚ
  faltanDatosProyectos : Int
deriving DecidableEq, Repr

/-- The aggregate of one key group: count of rows whose upper-cased stage is
not `"CERRADO"` (`es_proyecto_activo` summed), mean physical progress
(`fillna(0.0)` when the mean is missing), and the missing-ubigeo flag
(within a key group the ubigeo column is constant, the key component). -/
def filaProyectosDeClave (df : List FilaProyectoLimpio) (k : Clave) :
    FilaProyectoAgrupado :=
  let grupo := df.filter (fun p => p.clave = k)
  { clave := k
    conteoProyectosActivos :=
      (grupo.countP (fun p => p.etapa.toUpper ≠ "CERRADO") : Int)
    avancePromedioProyectos :=
      if grupo.length = 0 then 0
      else (grupo.map (fun p => p.avanceFisico)).sum / (grupo.length : ℚ)
    faltanDatosProyectos :=
      if (grupo.map (fun p => p.clave.ubigeo)).any (fun u => u.isNone) then 1 else 0 }

/-- `_agrupar_proyectos`: `groupby(CLAVE_MICROZONA, dropna=False)` — one row
per distinct key, missing key components kept as grouping values. -/
def agruparProyectos (df : List FilaProyectoLimpio) : List FilaProyectoAgrupado :=
  ((df.map (fun p => p.clave)).dedup).map (filaProyectosDeClave df)

/-! ## Integrator (`enriquecer_microzonas`, src/etl_sedapal.py) -/

/-- One row of the integrated microzone table.  Every value-bearing column is
optional: the two left joins introduce missing values, which the trailing
`fillna` loops replace by `some 0` — so downstream code (the indicator
calculator) still faces the general optional schema. -/
structure FilaMicrozona where
  clave : Clave
  conexionesAgua : Option Int
  conexionesAlcantarillado : Option Int
  fechaCorte : Option Fecha
  departamento : Option String
  provincia : Option String
  tarifaPredominante : Option String
  redPrimariaAgua : Option ℚ
  redSecundariaAgua : Option ℚ
  redPrimariaDesague : Option ℚ
  redSecundariaDesague : Option ℚ
  longitudTotalAgua : Option ℚ
  longitudTotalDesague : Option ℚ
  conteoProyectosActivos : Option Int
  avancePromedioProyectos : Option ℚ
  faltanDatosProyectos : Option Int
deriving DecidableEq, Repr

/-- A pandas left merge on the microzone key: each left row pairs with every
matching right row, or with `none` when there is no match (`merge(...,
how="left")`; pandas matches missing key components with missing key
components, as `Option` equality does). -/
def mergeLeft {α β γ : Type} (izquierda : List α) (derecha : List β)
    (kIzq : α → Clave) (kDer : β → Clave) (combinar : α → Option β → γ) : List γ :=
  izquierda.flatMap (fun a =>
    match derecha.filter (fun b => kDer b = kIzq a) with
    | [] => [combinar a none]
    | coincidencias => coincidencias.map (fun b => combinar a (some b)))

/-- The intermediate row after the first merge of `enriquecer_microzonas`. -/
structure FilaConexLong where
  base : FilaConexLimpia
  longitudes : Option FilaLongitudResumen
deriving DecidableEq, Repr

/-- The intermediate row after the second merge, before the `fillna` loops. -/
structure FilaMicrozonaSinRelleno where
  base : FilaConexLimpia
  longitudes : Option FilaLongitudResumen
  proyectos : Option FilaProyectoAgrupado
deriving DecidableEq, Repr

/-- The `fillna` loops of `enriquecer_microzonas`: every length column gets
0.0, `conteo_proyectos_activos`/`faltan_datos_proyectos` get 0 and
`avance_promedio_proyectos` gets 0.0 where the joins produced no match. -/
def rellenarMicrozona (f : FilaMicrozonaSinRelleno) : FilaMicrozona :=
  { clave := f.base.clave
    conexionesAgua := some f.base.conexionesAgua
    conexionesAlcantarillado := some f.base.conexionesAlcantarillado
    fechaCorte := f.base.fechaCorte
    departamento := f.base.departamento
    provincia := f.base.provincia
    tarifaPredominante := f.base.tarifaPredominante
    redPrimariaAgua := some ((f.longitudes.map (fun l => l.redPrimariaAgua)).getD 0)
    redSecundariaAgua := some ((f.longitudes.map (fun l => l.redSecundariaAgua)).getD 0)
    redPrimariaDesague := some ((f.longitudes.map (fun l => l.redPrimariaDesague)).getD 0)
    redSecundariaDesague := some ((f.longitudes.map (fun l => l.redSecundariaDesague)).getD 0)
    longitudTotalAgua := some ((f.longitudes.map (fun l => l.longitudTotalAgua)).getD 0)
    longitudTotalDesague := some ((f.longitudes.map (fun l => l.longitudTotalDesague)).getD 0)
    conteoProyectosActivos := some ((f.proyectos.map (fun p => p.conteoProyectosActivos)).getD 0)
    avancePromedioProyectos := some ((f.proyectos.map (fun p => p.avancePromedioProyectos)).getD 0)
    faltanDatosProyectos := some ((f.proyectos.map (fun p => p.faltanDatosProyectos)).getD 0) }

/-- `enriquecer_microzonas`: left-join the length summary onto the cleaned
connections, left-join the project aggregates, then fill the join gaps. -/
def enriquecerMicrozonas (conexiones : List FilaConexLimpia)
    (longitudes : List FilaLongitudResumen)
    (proyectos : List FilaProyectoLimpio) : List FilaMicrozona :=
  (mergeLeft
    (mergeLeft conexiones longitudes (fun c => c.clave) (fun l => l.clave)
      FilaConexLong.mk)
    (agruparProyectos proyectos) (fun f => f.base.clave) (fun p => p.clave)
    (fun f op => FilaMicrozonaSinRelleno.mk f.base f.longitudes op)).map
    rellenarMicrozona

/-! ### Merge lemmas -/

/-- A right table with duplicate-free keys matches a key at most once. -/
theorem filter_clave_corta {β : Type} (derecha : List β) (kDer : β → Clave)
    (h : (derecha.map kDer).Nodup) (k : Clave) :
    (derecha.filter (fun b => kDer b = k)).length ≤ 1 := by
  induction derecha with
  | nil => simp
  | cons b resto ih =>
    rw [List.map_cons, List.nodup_cons] at h
    rw [List.filter_cons]
    by_cases hb : kDer b = k
    · have hnil : resto.filter (fun b' => kDer b' = k) = [] := by
        rw [List.filter_eq_nil_iff]
        intro b' hb' hk
        exact h.1 (hb ▸ (by simpa using hk) ▸ List.mem_map_of_mem kDer hb')
      simp [hb, hnil]
    · simpa [hb] using ih h.2

/-- With duplicate-free right keys, a left merge is a plain map over the
left table, pairing each row with the head of its match list. -/
theorem mergeLeft_eq_map {α β γ : Type} (izquierda : List α) (derecha : List β)
    (kIzq : α → Clave) (kDer : β → Clave) (combinar : α → Option β → γ)
    (h : (derecha.map kDer).Nodup) :
    mergeLeft izquierda derecha kIzq kDer combinar
      = izquierda.map (fun a =>
          combinar a ((derecha.filter (fun b => kDer b = kIzq a)).head?)) := by
  unfold mergeLeft
  induction izquierda with
  | nil => rfl
  | cons a resto ih =>
    rw [List.flatMap_cons, List.map_cons, ih]
    cases hf : derecha.filter (fun b => kDer b = kIzq a) with
    | nil => rfl
    | cons b bs =>
      have hlen := filter_clave_corta derecha kDer h (kIzq a)
      rw [hf] at hlen
      have hbs : bs = [] := by
        cases bs with
        | nil => rfl
        | cons x xs => simp at hlen
      subst hbs
      rfl

/-- The keys of the project aggregate are exactly the distinct project keys. -/
theorem agruparProyectos_claves (df : List FilaProyectoLimpio) :
    (agruparProyectos df).map (fun p => p.clave)
      = (df.map (fun p => p.clave)).dedup := by
  unfold agruparProyectos
  rw [List.map_map]
  exact List.map_id _

/-- The integrator written as a plain map over the connections rows (valid
whenever the length table has duplicate-free keys; the project aggregate has
duplicate-free keys by construction). -/
theorem enriquecer_eq_map (conexiones : List FilaConexLimpia)
    (longitudes : List FilaLongitudResumen) (proyectos : List FilaProyectoLimpio)
    (hL : (longitudes.map (fun l => l.clave)).Nodup) :
    enriquecerMicrozonas conexiones longitudes proyectos
      = conexiones.map (fun c => rellenarMicrozona
          { base := c
            longitudes := (longitudes.filter (fun l => l.clave = c.clave)).head?
            proyectos := ((agruparProyectos proyectos).filter
              (fun p => p.clave = c.clave)).head? }) := by
  unfold enriquecerMicrozonas
  have hP : ((agruparProyectos proyectos).map (fun p => p.clave)).Nodup := by
    rw [agruparProyectos_claves]
    exact List.nodup_dedup _
  rw [mergeLeft_eq_map _ _ _ _ _ hL, mergeLeft_eq_map _ _ _ _ _ hP,
    List.map_map, List.map_map]
  rfl

/-- C2: with cleaned inputs (duplicate-free length keys; the project
aggregate is keyed by construction) the integrator neither drops nor
duplicates connection rows — the output has exactly one row per input
connection row, in place — and a row whose key matches nothing in the
length or project source gets all length columns `0.0`,
`conteo_proyectos_activos` `0` and `avance_promedio_proyectos` `0.0`,
never a missing row. -/
theorem enriquecer_preserva_conexiones (conexiones : List FilaConexLimpia)
    (longitudes : List FilaLongitudResumen) (proyectos : List FilaProyectoLimpio)
    (hL : (longitudes.map (fun l => l.clave)).Nodup) :
    (enriquecerMicrozonas conexiones longitudes proyectos).length = conexiones.length ∧
    (∀ (i : Nat) (c : FilaConexLimpia), conexiones[i]? = some c →
      ∃ salida : FilaMicrozona,
        (enriquecerMicrozonas conexiones longitudes proyectos)[i]? = some salida ∧
        salida.clave = c.clave ∧
        salida.conexionesAgua = some c.conexionesAgua ∧
        salida.conexionesAlcantarillado = some c.conexionesAlcantarillado ∧
        (c.clave ∉ longitudes.map (fun l => l.clave) →
          salida.longitudTotalAgua = some 0 ∧ salida.longitudTotalDesague = some 0 ∧
          salida.redPrimariaAgua = some 0 ∧ salida.redSecundariaAgua = some 0 ∧
          salida.redPrimariaDesague = some 0 ∧ salida.redSecundariaDesague = some 0) ∧
        (c.clave ∉ proyectos.map (fun p => p.clave) →
          salida.conteoProyectosActivos = some 0 ∧
          salida.avancePromedioProyectos = some 0 ∧
          salida.faltanDatosProyectos = some 0)) := by
  rw [enriquecer_eq_map conexiones longitudes proyectos hL]
  refine ⟨by simp, ?_⟩
  intro i c hc
  refine ⟨_, by rw [List.getElem?_map, hc]; rfl, rfl, rfl, rfl, ?_, ?_⟩
  · intro hm
    have hfil : longitudes.filter (fun l => l.clave = c.clave) = [] := by
      rw [List.filter_eq_nil_iff]
      intro l hl hk
      exact hm ((by simpa using hk) ▸ List.mem_map_of_mem (fun l => l.clave) hl)
    simp [rellenarMicrozona, hfil]
  · intro hm
    have hfil : (agruparProyectos proyectos).filter (fun p => p.clave = c.clave) = [] := by
      rw [List.filter_eq_nil_iff]
      intro p hp hk
      have : p.clave ∈ (agruparProyectos proyectos).map (fun p => p.clave) :=
        List.mem_map_of_mem _ hp
      rw [agruparProyectos_claves] at this
      exact hm ((by simpa using hk) ▸ List.mem_dedup.mp this)
    simp [rellenarMicrozona, hfil]

/-- An example microzone key used by concrete witnesses. -/
def claveEjemplo : Clave :=
  { ubigeo := some "150132"
    distrito := "SAN MIGUEL"
    gerenciaServicios := "GERENCIA NORTE"
    equipoComercial := "EQUIPO A"
    anio := some 2024
    mes := some 12 }

/-- An example cleaned connections row (1000 water / 600 sewer connections). -/
def filaConexEjemplo : FilaConexLimpia :=
  { clave := claveEjemplo
    conexionesAgua := 1000
    conexionesAlcantarillado := 600
    fechaCorte := none
    departamento := some "LIMA"
    provincia := some "LIMA"
    tarifaPredominante := some "DOMESTICO" }

/-- Witness for C2: one connections row, empty length and project sources —
one output row, with zero-filled length and project columns. -/
theorem enriquecer_preserva_conexiones_witness :
    (enriquecerMicrozonas [filaConexEjemplo] [] []).length = 1 ∧
    (∃ salida : FilaMicrozona,
      (enriquecerMicrozonas [filaConexEjemplo] [] [])[0]? = some salida ∧
      salida.clave = filaConexEjemplo.clave ∧
      salida.longitudTotalAgua = some 0 ∧
      salida.conteoProyectosActivos = some 0 ∧
      salida.avancePromedioProyectos = some 0) := by
  have h := enriquecer_preserva_conexiones [filaConexEjemplo] [] [] (by simp)
  refine ⟨h.1, ?_⟩
  rcases h.2 0 filaConexEjemplo rfl with
    ⟨salida, hsal, hclave, _, _, hlon, hproy⟩
  have hlon' := hlon (by simp)
  have hproy' := hproy (by simp)
  exact ⟨salida, hsal, hclave, hlon'.1, hproy'.1, hproy'.2.1⟩

/-! ## Indicator calculator (`calcular_indicadores`, src/etl_sedapal.py) -/

/-- One row of the indicator-enriched table.  `ratio`, the densities and the
three flags are freshly computed columns; `faltan_datos_proyectos` is
overwritten by `fillna(0).astype(int)`, hence no longer optional. -/
structure FilaIndicadores where
  clave : Clave
  conexionesAgua : Option Int
  conexionesAlcantarillado : Option Int
  fechaCorte : Option Fecha
  departamento : Option String
  provincia : Option String
  tarifaPredominante : Option String
  redPrimariaAgua : Option ℚ
  redSecundariaAgua : Option ℚ
  redPrimariaDesague : Option ℚ
  redSecundariaDesague : Option ℚ
  longitudTotalAgua : Option ℚ
  longitudTotalDesague : Option ℚ
  conteoProyectosActivos : Option Int
  avancePromedioProyectos : Option ℚ
  ratioConexionesAlcantarillado : ℚ
  densidadRedAgua : ℚ
  densidadRedDesague : ℚ
  faltanDatosLongitud : Int
  faltanDatosProyectos : Int
  registrosInconsistentes : Int
deriving DecidableEq, Repr

/-- The row lambda of the sewer/water ratio.  `fila["conexiones_agua"] or 0`
evaluates the truth value of the cell: on `pd.NA` (a missing `Int64` cell)
Python raises `TypeError: boolean value of NA is ambiguous`; on an integer it
selects the integer (or `0` for zero), so the guard is `agua > 0`.  Inside
the positive branch `float(fila["conexiones_alcantarillado"])` raises on a
missing cell. -/
def ratioFila (agua alc : Option Int) : Except String ℚ :=
  match agua with
  | none => Except.error "boolean value of NA is ambiguous"
  | some a =>
    if (0 : ℚ) < (a : ℚ) then
      match alc with
      | none => Except.error "float() argument must not be NA"
      | some b => Except.ok ((b : ℚ) / (a : ℚ))
    else Except.ok 0

/-- One density cell: `replace({0: pd.NA})` on the denominator, null-safe
division, `fillna(0.0)`. -/
def densidadFila (longitud : Option ℚ) (agua : Option Int) : ℚ :=
  match longitud, agua with
  | some l, some a => if a = 0 then 0 else l / (a : ℚ)
  | _, _ => 0

/-- One cell of `registros_inconsistentes`:
`isna(agua) | (agua < alc)` in Kleene logic, then `astype(int)`, which
raises when the masked boolean is still missing (`False | NA = NA`). -/
def registrosInconsistentesFila (agua alc : Option Int) : Except String Int :=
  match agua with
  | none => Except.ok 1
  | some a =>
    match alc with
    | none => Except.error "cannot convert NA to integer"
    | some b => Except.ok (if a < b then 1 else 0)

/-- `faltan_datos_longitud`: 1 when any `longitud_total_*` column is
missing in the row (the regex `^longitud_total_` matches exactly the two
total columns of this schema). -/
def faltanDatosLongitudFila (f : FilaMicrozona) : Int :=
  if f.longitudTotalAgua.isNone ∨ f.longitudTotalDesague.isNone then 1 else 0

/-- One output row of `calcular_indicadores`. -/
def calcularIndicadoresFila (f : FilaMicrozona) : Except String FilaIndicadores := do
  let r ← ratioFila f.conexionesAgua f.conexionesAlcantarillado
  let regs ← registrosInconsistentesFila f.conexionesAgua f.conexionesAlcantarillado
  pure
    { clave := f.clave
      conexionesAgua := f.conexionesAgua
      conexionesAlcantarillado := f.conexionesAlcantarillado
      fechaCorte := f.fechaCorte
      departamento := f.departamento
      provincia := f.provincia
      tarifaPredominante := f.tarifaPredominante
      redPrimariaAgua := f.redPrimariaAgua
      redSecundariaAgua := f.redSecundariaAgua
      redPrimariaDesague := f.redPrimariaDesague
      redSecundariaDesague := f.redSecundariaDesague
      longitudTotalAgua := f.longitudTotalAgua
      longitudTotalDesague := f.longitudTotalDesague
      conteoProyectosActivos := f.conteoProyectosActivos
      avancePromedioProyectos := f.avancePromedioProyectos
      ratioConexionesAlcantarillado := r
      densidadRedAgua := densidadFila f.longitudTotalAgua f.conexionesAgua
      densidadRedDesague := densidadFila f.longitudTotalDesague f.conexionesAgua
      faltanDatosLongitud := faltanDatosLongitudFila f
      faltanDatosProyectos := f.faltanDatosProyectos.getD 0
      registrosInconsistentes := regs }

/-- `calcular_indicadores`.  pandas computes column by column and an
exception raised by the ratio lambda or by the flag cast aborts the whole
call with no result; the row-wise `mapM` surfaces the same errors (when
several rows are bad, possibly a different one first — no claim depends on
which). -/
def calcularIndicadores (t : List FilaMicrozona) : Except String (List FilaIndicadores) :=
  t.mapM calcularIndicadoresFila

/-! ## Criticality annotator (src/analytics/microzonas.py) -/

/-- The columns of the reloaded microzone table that `anotar_indicadores`
and `calcular_percentiles` read (`cargar_microzonas` coerces them with
`errors="coerce"`, so every cell is optional). -/
structure FilaMicrozonaApi where
  ratioConexionesAlcantarillado : Option ℚ
  conexionesAgua : Option ℚ
  longitudTotalAgua : Option ℚ
  longitudTotalDesague : Option ℚ
  conteoProyectosActivos : Option ℚ
deriving DecidableEq, Repr

/-- An annotated row: the input columns plus `indice_critico`,
`categoria_microzona` and `advertencias_datos`. -/
structure FilaAnotada extends FilaMicrozonaApi where
  indiceCritico : Option ℚ
  categoriaMicrozona : String
  advertenciasDatos : List String
deriving DecidableEq, Repr

/-- Linear-interpolation quantile (`Series.quantile(q, interpolation="linear")`):
sort ascending, position `q * (n - 1)`, interpolate between the neighbouring
order statistics; undefined (`NaN`) on an empty series. -/
def cuantilLineal (xs : List ℚ) (q : ℚ) : Option ℚ :=
  let ys := xs.insertionSort (fun a b => a ≤ b)
  match ys with
  | [] => none
  | _ =>
    let n := ys.length - 1
    let pos : ℚ := q * (n : ℚ)
    let i : Nat := (Int.floor pos).toNat
    let g : ℚ := pos - ((Int.floor pos : Int) : ℚ)
    let a := ys.getD i 0
    let b := ys.getD (min (i + 1) n) 0
    some (a + g * (b - a))

/-- The summary of `calcular_percentiles` (`None` models the NaN returned on
an empty column). -/
structure ResumenPercentiles where
  totalRegistros : Nat
  p10Conexiones : Option ℚ
  p25Conexiones : Option ℚ
  medianaConexiones : Option ℚ
  p75Conexiones : Option ℚ
  medianaRatioConexiones : Option ℚ
  maximoRatioConexiones : Option ℚ
deriving DecidableEq, Repr

/-- `calcular_percentiles`: drop missing values, then the linear quantiles of
`conexiones_agua` and the median/max of the ratio column. -/
def calcularPercentiles (t : List FilaMicrozonaApi) : ResumenPercentiles :=
  let conexiones := t.filterMap (fun f => f.conexionesAgua)
  let ratios := t.filterMap (fun f => f.ratioConexionesAlcantarillado)
  { totalRegistros := t.length
    p10Conexiones := cuantilLineal conexiones (1/10)
    p25Conexiones := cuantilLineal conexiones (1/4)
    medianaConexiones := cuantilLineal conexiones (1/2)
    p75Conexiones := cuantilLineal conexiones (3/4)
    medianaRatioConexiones := cuantilLineal ratios (1/2)
    maximoRatioConexiones := ratios.max? }

/-- The ratio sub-score of one row (`fillna(1.0).clip(upper=1.0)`). -/
def subscoreRatioFila (f : FilaMicrozonaApi) : ℚ :=
  min ((f.ratioConexionesAlcantarillado).getD 1) 1

/-- The fallback reference of `anotar_indicadores` lines 160-163: the 75th
percentile of the current table, or 1.0 when that percentile is missing or
non-positive. -/
def percentilRespaldo (t : List FilaMicrozonaApi) : ℚ :=
  match (calcularPercentiles t).p75Conexiones with
  | some v => if v ≤ 0 then 1 else v
  | none => 1

/-- The coverage denominator of `anotar_indicadores` lines 158-163: the
stored `percentil_conexiones_critico` when it is a number greater than zero
(`none` models NaN and a missing attribute alike), else the fallback. -/
def percentilReferencia (criterios : CriteriosCriticidad)
    (t : List FilaMicrozonaApi) : ℚ :=
  match criterios.percentilConexionesCritico with
  | some p => if p ≤ 0 then percentilRespaldo t else p
  | none => percentilRespaldo t

/-- The coverage sub-score of one row:
`(conexiones / referencia).fillna(1.0).clip(upper=1.0)`.  (The reference is
always positive, so the division is ordinary.) -/
def subscoreCoberturaFila (referencia : ℚ) (f : FilaMicrozonaApi) : ℚ :=
  match f.conexionesAgua with
  | none => 1
  | some c => min (c / referencia) 1

/-- The effective ratio weight: renormalised inside the annotator when the
stored weights do not already sum to 1 (defensive step 4 of the spec). -/
def pesoRatioEfectivo (criterios : CriteriosCriticidad) : ℚ :=
  if criterios.pesoRatioVal + criterios.pesoConexiones ≠ 1 then
    criterios.pesoRatioVal / (criterios.pesoRatioVal + criterios.pesoConexiones)
  else criterios.pesoRatioVal

/-- The effective connections weight, renormalised alongside the other. -/
def pesoConexionesEfectivo (criterios : CriteriosCriticidad) : ℚ :=
  if criterios.pesoRatioVal + criterios.pesoConexiones ≠ 1 then
    criterios.pesoConexiones / (criterios.pesoRatioVal + criterios.pesoConexiones)
  else criterios.pesoConexiones

/-- The effective alert threshold (swapped when alert > critical). -/
def umbralAlertaEfectivo (criterios : CriteriosCriticidad) : ℚ :=
  if criterios.umbralCategoriaAlerta > criterios.umbralCategoriaCritica then
    criterios.umbralCategoriaCritica
  else criterios.umbralCategoriaAlerta

/-- The effective critical threshold (swapped when alert > critical). -/
def umbralCriticaEfectivo (criterios : CriteriosCriticidad) : ℚ :=
  if criterios.umbralCategoriaAlerta > criterios.umbralCategoriaCritica then
    criterios.umbralCategoriaAlerta
  else criterios.umbralCategoriaCritica

/-- `clasificar_microzona`: missing index → SIN_DATOS, then the two
thresholds. -/
def clasificarMicrozona (umbralAlerta umbralCritica : ℚ) (valor : Option ℚ) : String :=
  match valor with
  | none => "SIN_DATOS"
  | some v =>
    if umbralCritica ≤ v then "CRITICA"
    else if umbralAlerta ≤ v then "VIGILANCIA"
    else "ESTABLE"

/-- Missing or non-positive, the warning guard used four times by
`generar_advertencias`. -/
def esNuloONoPositivo (v : Option ℚ) : Bool :=
  match v with
  | none => true
  | some x => x ≤ 0

/-- `generar_advertencias`: the five warnings in their fixed order. -/
def generarAdvertencias (f : FilaMicrozonaApi) : List String :=
  (if esNuloONoPositivo f.longitudTotalAgua then
    ["Sin longitud de red de agua reportada."] else []) ++
  (if esNuloONoPositivo f.longitudTotalDesague then
    ["Sin longitud de red de desagüe reportada."] else []) ++
  (if esNuloONoPositivo f.conteoProyectosActivos then
    ["Sin proyectos activos registrados para la microzona."] else []) ++
  (if esNuloONoPositivo f.conexionesAgua then
    ["Sin conexiones de agua registradas."] else []) ++
  (match f.ratioConexionesAlcantarillado with
   | some x =>
     if 1 < x then ["El ratio de alcantarillado supera la unidad; revisar consistencia."]
     else []
   | none => [])

/-- One output row of `anotar_indicadores`: the rounded index, its category
(computed from the rounded index) and the warnings. -/
def anotarFila (pesoR pesoC umbralAlerta umbralCritica referencia : ℚ)
    (f : FilaMicrozonaApi) : FilaAnotada :=
  let indice := redondear3 (pesoR * (1 - subscoreRatioFila f)
    + pesoC * (1 - subscoreCoberturaFila referencia f))
  { toFilaMicrozonaApi := f
    indiceCritico := some indice
    categoriaMicrozona := clasificarMicrozona umbralAlerta umbralCritica (some indice)
    advertenciasDatos := generarAdvertencias f }

/-- `anotar_indicadores`: empty input gives the empty annotated table;
otherwise compute the reference and the effective weights/thresholds once
and annotate every row. -/
def anotarIndicadores (t : List FilaMicrozonaApi)
    (criterios : CriteriosCriticidad) : List FilaAnotada :=
  if t.isEmpty then []
  else
    t.map (anotarFila (pesoRatioEfectivo criterios) (pesoConexionesEfectivo criterios)
      (umbralAlertaEfectivo criterios) (umbralCriticaEfectivo criterios)
      (percentilReferencia criterios t))

/-! ### Bounds for the rounded criticality index (claim C1) -/

/-- Half-even rounding keeps a value of `[0, n]` inside `[0, n]`. -/
theorem redondearMedioPar_acotado (x : ℚ) (n : Int) (h0 : 0 ≤ x) (hn : x ≤ (n : ℚ)) :
    0 ≤ redondearMedioPar x ∧ redondearMedioPar x ≤ n := by
  have hpiso0 : 0 ≤ Int.floor x := Int.le_floor.mpr (by exact_mod_cast h0)
  have hpison : Int.floor x ≤ n := by
    have h := Int.floor_le_floor hn
    simpa using h
  unfold redondearMedioPar
  by_cases h1 : x - Int.floor x < 1/2
  · rw [if_pos h1]; exact ⟨hpiso0, hpison⟩
  · rw [if_neg h1]
    have hlt : Int.floor x < n := by
      rcases lt_or_eq_of_le hpison with hlt | heq
      · exact hlt
      · exfalso
        apply h1
        have hfl := Int.floor_le x
        have : x ≤ ((Int.floor x : Int) : ℚ) := by rw [heq]; exact_mod_cast hn
        linarith
    by_cases h2 : 1/2 < x - Int.floor x
    · rw [if_pos h2]
      constructor <;> omega
    · rw [if_neg h2]
      by_cases h3 : Int.floor x % 2 = 0
      · rw [if_pos h3]; exact ⟨hpiso0, hpison⟩
      · rw [if_neg h3]
        constructor <;> omega

/-- Rounding to three decimals keeps a value of `[0, 1]` inside `[0, 1]`. -/
theorem redondear3_en_unidad (q : ℚ) (h0 : 0 ≤ q) (h1 : q ≤ 1) :
    0 ≤ redondear3 q ∧ redondear3 q ≤ 1 := by
  have h := redondearMedioPar_acotado (q * 1000) 1000 (by positivity)
    (by push_cast; linarith)
  unfold redondear3
  constructor
  · exact div_nonneg (by exact_mod_cast h.1) (by norm_num)
  · rw [div_le_one (by norm_num)]
    exact_mod_cast h.2

/-- The ratio sub-score never exceeds 1 (it is clipped). -/
theorem subscoreRatioFila_le_uno (f : FilaMicrozonaApi) : subscoreRatioFila f ≤ 1 :=
  min_le_right _ _

/-- The coverage sub-score never exceeds 1 (missing → 1, present → clipped). -/
theorem subscoreCoberturaFila_le_uno (referencia : ℚ) (f : FilaMicrozonaApi) :
    subscoreCoberturaFila referencia f ≤ 1 := by
  unfold subscoreCoberturaFila
  cases f.conexionesAgua with
  | none => exact le_refl 1
  | some c => exact min_le_right _ _

/-- For constructed criteria the stored weights already sum to 1, so the
defensive renormalisation inside the annotator is the identity. -/
theorem pesos_efectivos_construidos (a b : ℚ) (p : Option ℚ) (ua uc : ℚ) :
    pesoRatioEfectivo (construirCriterios a b p ua uc)
      = (construirCriterios a b p ua uc).pesoRatioVal ∧
    pesoConexionesEfectivo (construirCriterios a b p ua uc)
      = (construirCriterios a b p ua uc).pesoConexiones := by
  have h := (pesos_construidos_normalizados a b p ua uc).2.2
  unfold pesoRatioEfectivo pesoConexionesEfectivo
  rw [if_neg (not_not_intro h), if_neg (not_not_intro h)]
  exact ⟨rfl, rfl⟩

/-- A present index is never classified SIN_DATOS. -/
theorem clasificar_presente_no_sin_datos (x y v : ℚ) :
    clasificarMicrozona x y (some v) ≠ "SIN_DATOS" := by
  show (if y ≤ v then "CRITICA" else if x ≤ v then "VIGILANCIA" else "ESTABLE")
    ≠ "SIN_DATOS"
  by_cases h1 : y ≤ v
  · rw [if_pos h1]; decide
  · rw [if_neg h1]
    by_cases h2 : x ≤ v
    · rw [if_pos h2]; decide
    · rw [if_neg h2]; decide

/-- C1: under any constructed criteria, whenever both sub-scores of every
row are within `[0,1]` (the non-trivial half — the clip gives the upper
bound — the claim grants it), every annotated row has `indice_critico`
missing or within `[0,1]`, and its category is SIN_DATOS exactly when the
index is missing. -/
theorem indice_critico_acotado (t : List FilaMicrozonaApi) (a b : ℚ)
    (p : Option ℚ) (ua uc : ℚ)
    (hsub : ∀ f ∈ t, 0 ≤ subscoreRatioFila f ∧
      0 ≤ subscoreCoberturaFila
        (percentilReferencia (construirCriterios a b p ua uc) t) f) :
    ∀ g ∈ anotarIndicadores t (construirCriterios a b p ua uc),
      (g.indiceCritico = none ∨ ∃ v, g.indiceCritico = some v ∧ 0 ≤ v ∧ v ≤ 1) ∧
      (g.categoriaMicrozona = "SIN_DATOS" ↔ g.indiceCritico = none) := by
  intro g hg
  unfold anotarIndicadores at hg
  by_cases ht : t.isEmpty
  · rw [if_pos ht] at hg
    simp at hg
  · rw [if_neg ht] at hg
    rcases List.mem_map.mp hg with ⟨f, hf, hgf⟩
    obtain ⟨hr0, hc0⟩ := hsub f hf
    have hr1 := subscoreRatioFila_le_uno f
    have hc1 := subscoreCoberturaFila_le_uno
      (percentilReferencia (construirCriterios a b p ua uc) t) f
    obtain ⟨hpa, hpb, hps⟩ := pesos_construidos_normalizados a b p ua uc
    obtain ⟨hex1, hex2⟩ := pesos_efectivos_construidos a b p ua uc
    have hval0 : 0 ≤ pesoRatioEfectivo (construirCriterios a b p ua uc)
        * (1 - subscoreRatioFila f)
        + pesoConexionesEfectivo (construirCriterios a b p ua uc)
        * (1 - subscoreCoberturaFila
            (percentilReferencia (construirCriterios a b p ua uc) t) f) := by
      rw [hex1, hex2]
      have hm1 := mul_nonneg hpa (by linarith : (0:ℚ) ≤ 1 - subscoreRatioFila f)
      have hm2 := mul_nonneg hpb (by linarith : (0:ℚ) ≤ 1 - subscoreCoberturaFila
        (percentilReferencia (construirCriterios a b p ua uc) t) f)
      linarith
    have hval1 : pesoRatioEfectivo (construirCriterios a b p ua uc)
        * (1 - subscoreRatioFila f)
        + pesoConexionesEfectivo (construirCriterios a b p ua uc)
        * (1 - subscoreCoberturaFila
            (percentilReferencia (construirCriterios a b p ua uc) t) f) ≤ 1 := by
      rw [hex1, hex2]
      nlinarith [mul_nonneg hpa hr0, mul_nonneg hpb hc0]
    have hround := redondear3_en_unidad _ hval0 hval1
    subst hgf
    refine ⟨Or.inr ⟨_, rfl, hround.1, hround.2⟩, ?_, ?_⟩
    · intro hSD
      exact absurd hSD (clasificar_presente_no_sin_datos _ _ _)
    · intro hnone
      exact Option.noConfusion hnone

/-- An example reloaded microzone row: ratio 0.6, 1000 water connections,
no network lengths, no active projects. -/
def filaApiEjemplo : FilaMicrozonaApi :=
  { ratioConexionesAlcantarillado := some (3/5)
    conexionesAgua := some 1000
    longitudTotalAgua := some 0
    longitudTotalDesague := some 0
    conteoProyectosActivos := some 0 }

/-- Witness for C1 on a one-row table under the default criteria inputs. -/
theorem indice_critico_acotado_witness :
    (∀ f ∈ [filaApiEjemplo], 0 ≤ subscoreRatioFila f ∧
      0 ≤ subscoreCoberturaFila
        (percentilReferencia
          (construirCriterios (6/10) (4/10) (some 15162) (3/10) (6/10))
          [filaApiEjemplo]) f) ∧
    (∀ g ∈ anotarIndicadores [filaApiEjemplo]
        (construirCriterios (6/10) (4/10) (some 15162) (3/10) (6/10)),
      (g.indiceCritico = none ∨ ∃ v, g.indiceCritico = some v ∧ 0 ≤ v ∧ v ≤ 1) ∧
      (g.categoriaMicrozona = "SIN_DATOS" ↔ g.indiceCritico = none)) :=
  ⟨by decide,
    indice_critico_acotado [filaApiEjemplo] (6/10) (4/10) (some 15162)
      (3/10) (6/10) (by decide)⟩

/-! ### Claim C4: the default-criteria scenario -/

/-- Projection of a computed indicator row onto the columns the annotator
reads (`cargar_microzonas` reloads the CSV with numeric coercion; on a
freshly computed table this is value-preserving). -/
def aFilaApi (g : FilaIndicadores) : FilaMicrozonaApi :=
  { ratioConexionesAlcantarillado := some g.ratioConexionesAlcantarillado
    conexionesAgua := g.conexionesAgua.map (fun z => (z : ℚ))
    longitudTotalAgua := g.longitudTotalAgua
    longitudTotalDesague := g.longitudTotalDesague
    conteoProyectosActivos := g.conteoProyectosActivos.map (fun z => (z : ℚ)) }

/-- The table of a non-raising computation (empty on error). -/
def tablaOVacia {α : Type} (e : Except String (List α)) : List α :=
  match e with
  | Except.ok l => l
  | Except.error _ => []

/-- The C4 scenario table: the single 1000/600 connections row, no lengths,
no projects, run through the integrator, the indicator calculator and the
annotator with the default criteria. -/
def escenarioConexiones : List FilaAnotada :=
  anotarIndicadores
    ((tablaOVacia (calcularIndicadores
      (enriquecerMicrozonas [filaConexEjemplo] [] []))).map aFilaApi)
    criteriosPorDefecto

/-- The integrated row of the C4 scenario: the 1000/600 connections row with
every join gap filled by zero. -/
def filaMicroEsperada : FilaMicrozona :=
  { clave := claveEjemplo
    conexionesAgua := some 1000
    conexionesAlcantarillado := some 600
    fechaCorte := none
    departamento := some "LIMA"
    provincia := some "LIMA"
    tarifaPredominante := some "DOMESTICO"
    redPrimariaAgua := some 0
    redSecundariaAgua := some 0
    redPrimariaDesague := some 0
    redSecundariaDesague := some 0
    longitudTotalAgua := some 0
    longitudTotalDesague := some 0
    conteoProyectosActivos := some 0
    avancePromedioProyectos := some 0
    faltanDatosProyectos := some 0 }

/-- The indicator row of the C4 scenario: ratio 0.6, zero densities, clean
flags. -/
def filaIndEsperada : FilaIndicadores :=
  { clave := claveEjemplo
    conexionesAgua := some 1000
    conexionesAlcantarillado := some 600
    fechaCorte := none
    departamento := some "LIMA"
    provincia := some "LIMA"
    tarifaPredominante := some "DOMESTICO"
    redPrimariaAgua := some 0
    redSecundariaAgua := some 0
    redPrimariaDesague := some 0
    redSecundariaDesague := some 0
    longitudTotalAgua := some 0
    longitudTotalDesague := some 0
    conteoProyectosActivos := some 0
    avancePromedioProyectos := some 0
    ratioConexionesAlcantarillado := 3/5
    densidadRedAgua := 0
    densidadRedDesague := 0
    faltanDatosLongitud := 0
    faltanDatosProyectos := 0
    registrosInconsistentes := 0 }

/-- Step 1 of the C4 scenario: integrating the lone connections row with
empty length and project sources. -/
theorem escenario_paso_integracion :
    enriquecerMicrozonas [filaConexEjemplo] [] [] = [filaMicroEsperada] := by
  decide

/-- Step 2 of the C4 scenario: the indicator calculator on the integrated
row. -/
theorem escenario_paso_indicadores :
    tablaOVacia (calcularIndicadores [filaMicroEsperada]) = [filaIndEsperada] := by
  decide

/-- C4 counterexample: in the claimed scenario the annotator does not
classify the row VIGILANCIA (the claimed index 0.414 mis-evaluates the
formula: `0.6·(1−0.6) + 0.4·(1−1000/15162) = 0.6136…`, which rounds to
0.614 ≥ 0.6, the critical threshold). -/
theorem escenario_conexiones_refuta :
    escenarioConexiones.map (fun g => g.categoriaMicrozona) ≠ ["VIGILANCIA"] := by
  unfold escenarioConexiones
  rw [escenario_paso_integracion, escenario_paso_indicadores]
  decide

/-- C4 (amended): in that scenario the ratio sub-score is 0.6, the coverage
sub-score is `min(1000/15162, 1) = 500/7581 ≈ 0.066`, the criticality index
rounds to 0.614 and the category is CRITICA. -/
theorem escenario_conexiones_valores :
    escenarioConexiones.map (fun g => (g.indiceCritico, g.categoriaMicrozona))
      = [(some (307/500), "CRITICA")] ∧
    (tablaOVacia (calcularIndicadores
        (enriquecerMicrozonas [filaConexEjemplo] [] []))).map
        (fun g => subscoreRatioFila (aFilaApi g)) = [3/5] ∧
    (tablaOVacia (calcularIndicadores
        (enriquecerMicrozonas [filaConexEjemplo] [] []))).map
        (fun g => subscoreCoberturaFila
          (percentilReferencia criteriosPorDefecto
            ((tablaOVacia (calcularIndicadores
              (enriquecerMicrozonas [filaConexEjemplo] [] []))).map aFilaApi))
          (aFilaApi g)) = [500/7581] := by
  unfold escenarioConexiones
  rw [escenario_paso_integracion, escenario_paso_indicadores]
  decide

/-! ### Claim C5: the coverage reference fallback

The stored reference is a Python float, whose domain includes the
non-finite values NaN, +inf and -inf that `ℚ` (and hence `Option ℚ`)
cannot carry; `ValorDoble` models one such cell over the full domain.
`pd.notna` is false only on NaN, so the guard of `anotar_indicadores`
lines 158-163, `not pd.notna(x) or x <= 0`, sends NaN, -inf and
non-positive finite values to the percentile fallback — but keeps +inf,
which is "notna" and greater than zero, as the coverage denominator. -/

/-- A Python float cell: NaN, an infinity, or a finite value. -/
inductive ValorDoble where
  | nan : ValorDoble
  | infPos : ValorDoble
  | infNeg : ValorDoble
  | finito : ℚ → ValorDoble
deriving DecidableEq, Repr

/-- The `max(float(x), 1.0)` of `__post_init__` lines 30-34 over the full
float domain: `max(nan, 1.0)` is `nan` (Python `max` keeps its first
argument when the comparison is false), `max(inf, 1.0)` is `inf`,
`max(-inf, 1.0)` is 1 — so a +inf reference survives construction. -/
def maxDoble1 : ValorDoble → ValorDoble
  | ValorDoble.nan => ValorDoble.nan
  | ValorDoble.infPos => ValorDoble.infPos
  | ValorDoble.infNeg => ValorDoble.finito 1
  | ValorDoble.finito p => ValorDoble.finito (max p 1)

/-- The coverage denominator chosen by `anotar_indicadores` lines 158-163
for an arbitrarily stored float: `not pd.notna(x) or x <= 0` selects the
fallback (the 75th percentile, else 1.0); every other value — +inf
included — is kept as the denominator. -/
def referenciaEscogida (ref : ValorDoble) (t : List FilaMicrozonaApi) : ValorDoble :=
  match ref with
  | ValorDoble.nan => ValorDoble.finito (percentilRespaldo t)
  | ValorDoble.infNeg => ValorDoble.finito (percentilRespaldo t)
  | ValorDoble.infPos => ValorDoble.infPos
  | ValorDoble.finito p =>
    if p ≤ 0 then ValorDoble.finito (percentilRespaldo t) else ValorDoble.finito p

/-- The coverage sub-score
`(conexiones / referencia).fillna(1.0).clip(upper=1.0)` under an arbitrary
float denominator: division by ±inf gives ±0.0 (0 after the clip), division
by NaN gives NaN, refilled with 1 by the `fillna`. -/
def subscoreCoberturaDoble (ref : ValorDoble) (f : FilaMicrozonaApi) : ℚ :=
  match f.conexionesAgua with
  | none => 1
  | some c =>
    match ref with
    | ValorDoble.finito r => min (c / r) 1
    | ValorDoble.infPos => 0
    | ValorDoble.infNeg => 0
    | ValorDoble.nan => 1

/-- C5 counterexample: a stored reference of +inf is non-finite, survives
`__post_init__` (`max(inf, 1.0) = inf`), yet the annotator keeps it as the
coverage denominator instead of the claimed 75th-percentile fallback; the
1000-connection row's coverage sub-score is then 0 where the fallback
(75th percentile 1000) would give 1. -/
theorem referencia_infinita_no_usa_percentil :
    maxDoble1 ValorDoble.infPos = ValorDoble.infPos ∧
    referenciaEscogida ValorDoble.infPos [filaApiEjemplo] = ValorDoble.infPos ∧
    referenciaEscogida ValorDoble.infPos [filaApiEjemplo]
      ≠ ValorDoble.finito (percentilRespaldo [filaApiEjemplo]) ∧
    subscoreCoberturaDoble ValorDoble.infPos filaApiEjemplo = 0 ∧
    subscoreCoberturaDoble (ValorDoble.finito (percentilRespaldo [filaApiEjemplo]))
      filaApiEjemplo = 1 := by
  refine ⟨rfl, rfl, by decide, rfl, by decide⟩

/-- C5 (amended): when the stored reference is unset/NaN, -inf, or a
non-positive number, the annotator's coverage denominator is the 75th
percentile of `conexiones_agua` over the current table (1.0 exactly when
that percentile is missing or non-positive); a stored +inf, however, is not
sent to the fallback — it is kept as the denominator and drives the
coverage sub-score of every row with a present connection count to 0. -/
theorem referencia_percentil_o_infinita (ref : ValorDoble)
    (t : List FilaMicrozonaApi)
    (hinv : ref = ValorDoble.nan ∨ ref = ValorDoble.infNeg ∨
      ∃ p, ref = ValorDoble.finito p ∧ p ≤ 0) :
    (∀ v, (calcularPercentiles t).p75Conexiones = some v → 0 < v →
      referenciaEscogida ref t = ValorDoble.finito v) ∧
    (((calcularPercentiles t).p75Conexiones = none ∨
      ∃ v, (calcularPercentiles t).p75Conexiones = some v ∧ v ≤ 0) →
      referenciaEscogida ref t = ValorDoble.finito 1) ∧
    (∀ (f : FilaMicrozonaApi) (c : ℚ), f.conexionesAgua = some c →
      subscoreCoberturaDoble (referenciaEscogida ValorDoble.infPos t) f = 0) := by
  have hesc : referenciaEscogida ref t = ValorDoble.finito (percentilRespaldo t) := by
    unfold referenciaEscogida
    rcases hinv with h | h | ⟨p, hp, hple⟩
    · rw [h]
    · rw [h]
    · rw [hp]
      show (if p ≤ 0 then ValorDoble.finito (percentilRespaldo t)
        else ValorDoble.finito p) = ValorDoble.finito (percentilRespaldo t)
      rw [if_pos hple]
  refine ⟨?_, ?_, ?_⟩
  · intro v hv hvpos
    rw [hesc]
    unfold percentilRespaldo
    rw [hv]
    show ValorDoble.finito (if v ≤ 0 then 1 else v) = ValorDoble.finito v
    rw [if_neg (not_le.mpr hvpos)]
  · intro h
    rw [hesc]
    unfold percentilRespaldo
    rcases h with h | ⟨v, hv, hvle⟩
    · rw [h]
    · rw [hv]
      show ValorDoble.finito (if v ≤ 0 then 1 else v) = ValorDoble.finito 1
      rw [if_pos hvle]
  · intro f c hc
    show subscoreCoberturaDoble ValorDoble.infPos f = 0
    unfold subscoreCoberturaDoble
    rw [hc]

/-- Witness for the amended C5: a NaN (unset) reference on the one-row
table falls back to that table's 75th percentile, 1000, while the +inf case
yields coverage sub-score 0 at the same row. -/
theorem referencia_percentil_o_infinita_witness :
    (ValorDoble.nan = ValorDoble.nan ∨ ValorDoble.nan = ValorDoble.infNeg ∨
      ∃ p, ValorDoble.nan = ValorDoble.finito p ∧ p ≤ 0) ∧
    referenciaEscogida ValorDoble.nan [filaApiEjemplo] = ValorDoble.finito 1000 ∧
    subscoreCoberturaDoble (referenciaEscogida ValorDoble.infPos [filaApiEjemplo])
      filaApiEjemplo = 0 := by
  have h := referencia_percentil_o_infinita ValorDoble.nan [filaApiEjemplo] (Or.inl rfl)
  exact ⟨Or.inl rfl, h.1 1000 (by decide) (by norm_num), h.2.2 filaApiEjemplo 1000 rfl⟩

/-! ### Claim C8: zero and missing denominators in the indicator calculator -/

/-- A microzone row with zero water connections (and ordinary other values). -/
def filaMicrozonaCero : FilaMicrozona :=
  { clave := claveEjemplo
    conexionesAgua := some 0
    conexionesAlcantarillado := some 600
    fechaCorte := none
    departamento := some "LIMA"
    provincia := some "LIMA"
    tarifaPredominante := some "DOMESTICO"
    redPrimariaAgua := some 100
    redSecundariaAgua := some 50
    redPrimariaDesague := some 80
    redSecundariaDesague := some 40
    longitudTotalAgua := some 150
    longitudTotalDesague := some 120
    conteoProyectosActivos := some 2
    avancePromedioProyectos := some 80
    faltanDatosProyectos := some 0 }

/-- The same row with a genuinely missing (`pd.NA`) water-connections cell. -/
def filaMicrozonaNula : FilaMicrozona :=
  { filaMicrozonaCero with conexionesAgua := none }

/-- C8: a zero denominator is safe — ratio and both densities come out 0.0 —
but a missing (`pd.NA`) water-connections cell makes `calcular_indicadores`
raise (evaluating `fila["conexiones_agua"] or 0` asks for the truth value of
`pd.NA`), contradicting the claim's "never an exception" for null
denominators. -/
theorem division_cero_segura_nula_lanza :
    (tablaOVacia (calcularIndicadores [filaMicrozonaCero])).map
        (fun g => (g.ratioConexionesAlcantarillado, g.densidadRedAgua,
          g.densidadRedDesague))
      = [(0, 0, 0)] ∧
    (calcularIndicadores [filaMicrozonaNula]).toOption = none := by
  decide

/-! ### Claim C9: one aggregated row per key, and the pivot's dropped keys -/

/-- Counting rows of a grouped table that carry one key: 1 when the key
occurs among the grouping values, 0 otherwise. -/
theorem countP_agrupado_general {β : Type} (claves : List Clave) (g : Clave → β)
    (pk : β → Clave) (hg : ∀ c, pk (g c) = c) (k : Clave) :
    ((claves.dedup).map g).countP (fun b => pk b = k)
      = if k ∈ claves then 1 else 0 := by
  rw [List.countP_eq_length_filter, filter_of_map]
  have hcongr : (claves.dedup).filter (fun c => decide (pk (g c) = k))
      = (claves.dedup).filter (fun c => c = k) := by
    apply List.filter_congr
    intro c _
    rw [hg]
  rw [hcongr, filter_eq_of_nodup _ _ (List.nodup_dedup _)]
  by_cases hk : k ∈ claves
  · rw [if_pos (List.mem_dedup.mpr hk), if_pos hk]
    rfl
  · rw [if_neg (fun h => hk (List.mem_dedup.mp h)), if_neg hk]
    rfl

/-- The surviving pivot keys are exactly the keys of the normalised rows
whose key tuple is complete and whose class is valid. -/
theorem longitudesVisibles_claves (df : List FilaLongitudNormalizada) (k : Clave) :
    k ∈ (longitudesVisibles df).map (fun f => f.clave)
      ↔ k ∈ (df.filter (fun f => claveCompleta f.clave && f.clase.isSome)).map
          (fun f => f.clave) := by
  unfold longitudesVisibles agruparLongitudPorClaveClase
  simp only [List.mem_map, List.mem_filter, filter_of_map, List.mem_dedup]
  constructor
  · rintro ⟨par, ⟨a, ⟨⟨f, hf, hfeq⟩, hflags⟩, hmk⟩, hk⟩
    subst hmk
    subst hfeq
    exact ⟨f, ⟨hf, hflags⟩, hk⟩
  · rintro ⟨f, ⟨hf, hflags⟩, hk⟩
    exact ⟨_, ⟨(f.clave, f.clase), ⟨⟨f, hf, rfl⟩, hflags⟩, rfl⟩, hk⟩

/-- C9 (amended): the connections aggregation and the project aggregation
emit exactly one row per distinct key tuple of their input, missing key
components included (`dropna=False`); the length pivot emits exactly one row
per distinct key among the rows whose key tuple is complete and whose class
is valid — rows with a missing `ubigeo`, `anio` or `mes` (or an invalid
class) are dropped by `pivot_table`, not kept. -/
theorem agrupaciones_filas_por_clave (dfC : List FilaConexNormalizada)
    (dfP : List FilaProyectoLimpio) (dfL : List FilaLongitudNormalizada) (k : Clave) :
    (agruparPorMicrozona dfC).countP (fun f => f.clave = k)
        = (if k ∈ dfC.map (fun f => f.clave) then 1 else 0) ∧
    (agruparProyectos dfP).countP (fun p => p.clave = k)
        = (if k ∈ dfP.map (fun p => p.clave) then 1 else 0) ∧
    (construirResumen dfL).countP (fun f => f.clave = k)
        = (if k ∈ (dfL.filter (fun f => claveCompleta f.clave && f.clase.isSome)).map
            (fun f => f.clave) then 1 else 0) := by
  refine ⟨countP_agrupado_general _ _ _ (fun c => rfl) k,
    countP_agrupado_general _ _ _ (fun c => rfl) k, ?_⟩
  have h := countP_agrupado_general ((longitudesVisibles dfL).map (fun f => f.clave))
    (filaResumenDeClave dfL) (fun f => f.clave) (fun c => rfl) k
  have hiff := longitudesVisibles_claves dfL k
  by_cases hk : k ∈ (dfL.filter (fun f => claveCompleta f.clave && f.clase.isSome)).map
      (fun f => f.clave)
  · rw [if_pos (hiff.mpr hk)] at h
    rw [if_pos hk]
    exact h
  · rw [if_neg (fun hmem => hk (hiff.mp hmem))] at h
    rw [if_neg hk]
    exact h

/-- A raw length row whose year is out of range: after normalisation its key
tuple has a missing `anio`. -/
def filaLongitudPerdida : FilaLongitudCruda :=
  { gerenciaServicios := some "GERENCIA NORTE"
    equipoComercial := some "EQUIPO A"
    departamento := some "LIMA"
    provincia := some "LIMA"
    distrito := some "ATE"
    ubigeo := some "150101"
    clase := some "Agua"
    redPrimaria := some "10"
    redSecundaria := some "5"
    anio := some "1999"
    mes := some "5" }

/-- C9 counterexample: a length row with a missing key component (year 1999
is outside `[2000, 2100]`, hence missing) occurs in the cleaned input, yet
the pivot output has no row at all for its key — the row is dropped, not
kept. -/
theorem pivote_longitudes_pierde_clave :
    limpiarLongitudes [filaLongitudPerdida] = [] ∧
    ([filaLongitudPerdida].map normalizarFilaLongitud).map (fun f => f.clave) ≠ [] := by
  with_unfolding_all decide

/-! ## Frame effects of the pipeline stages (claim C10)

Python mutates DataFrames in place, so the "caller's table is unchanged"
claim is modelled over an explicit heap of tables.  Each stage is a little
program over that heap: `copiar` models `tabla.copy()` (a fresh cell whose
content is the working frame's value), `mutar` models the in-place column
assignments the stage performs on its working frame (the source's several
consecutive in-place helpers on one frame appear as mutations of that same
cell, the bodies being the pure column transformations defined above), and
`reasignar` models rebinding the local name to a freshly built frame
(`assign`/`explode`, `_agrupar_por_microzona`).  The working reference
starts at the caller's table — exactly the aliasing a forgotten `.copy()`
would exploit — and the first operation of every stage is the copy. -/

/-- A heap operation of a pipeline stage. -/
inductive OpTabla (τ : Type) where
  | copiar : OpTabla τ
  | mutar : (τ → τ) → OpTabla τ
  | reasignar : (τ → τ) → OpTabla τ

/-- One step: the state is the heap plus the index of the working frame. -/
def pasoTabla {τ : Type} [Inhabited τ] (estado : List τ × Nat) (op : OpTabla τ) :
    List τ × Nat :=
  match op with
  | OpTabla.copiar =>
    (estado.1 ++ [(estado.1[estado.2]?).getD default], estado.1.length)
  | OpTabla.mutar f =>
    (estado.1.set estado.2 (f ((estado.1[estado.2]?).getD default)), estado.2)
  | OpTabla.reasignar f =>
    (estado.1 ++ [f ((estado.1[estado.2]?).getD default)], estado.1.length)

/-- Run a stage program on a heap, the working reference starting at the
caller's table. -/
def correrPrograma {τ : Type} [Inhabited τ] (ops : List (OpTabla τ))
    (heap : List τ) (ref : Nat) : List τ × Nat :=
  ops.foldl pasoTabla (heap, ref)

/-- The states of the connections table across `limpiar_conexiones`. -/
inductive TablaConexiones where
  | cruda : List FilaConexCruda → TablaConexiones
  | normalizada : List FilaConexNormalizada → TablaConexiones
  | agrupada : List FilaConexLimpia → TablaConexiones
deriving Inhabited

/-- The in-place normalisation helpers of `limpiar_conexiones` lines 71-86,
as one aggregate mutation of the working copy. -/
def normalizarConexionesEnTabla : TablaConexiones → TablaConexiones
  | TablaConexiones.cruda t => TablaConexiones.normalizada (normalizarConexiones t)
  | otra => otra

/-- The rebinding `df_conexiones = _agrupar_por_microzona(df_conexiones)`
(line 87): a freshly built frame. -/
def agruparConexionesEnTabla : TablaConexiones → TablaConexiones
  | TablaConexiones.normalizada t => TablaConexiones.agrupada (agruparPorMicrozona t)
  | otra => otra

/-- `limpiar_conexiones` as a heap program: copy first (line 69), then
mutate only the copy, then build the grouped result as a new frame. -/
def programaLimpiarConexiones : List (OpTabla TablaConexiones) :=
  [OpTabla.copiar, OpTabla.mutar normalizarConexionesEnTabla,
    OpTabla.reasignar agruparConexionesEnTabla]

/-- The states of the projects table across `limpiar_proyectos`. -/
inductive TablaProyectos where
  | cruda : List FilaProyectoCruda → TablaProyectos
  | detallada : List FilaProyectoLimpio → TablaProyectos
deriving Inhabited

/-- The in-place text normalisation before the explosion (lines 68-72 and
the district rewriting inside `_normalizar_distritos`). -/
def prepararProyectosEnTabla : TablaProyectos → TablaProyectos
  | TablaProyectos.cruda t => TablaProyectos.cruda (prepararProyectos t)
  | otra => otra

/-- The `assign`/`explode` of `_normalizar_distritos`: a new frame. -/
def explotarProyectosEnTabla : TablaProyectos → TablaProyectos
  | TablaProyectos.cruda t => TablaProyectos.cruda (explotarDistritos t)
  | otra => otra

/-- The remaining in-place normalisation after the explosion (district
strip, ubigeo, name, contractor, stage, progress, cost, dates, year/month). -/
def terminarProyectosEnTabla : TablaProyectos → TablaProyectos
  | TablaProyectos.cruda t => TablaProyectos.detallada
      (terminarProyectos (recortarDistritos t))
  | otra => otra

/-- `limpiar_proyectos` as a heap program: copy (line 57), mutate the copy,
rebind to the exploded frame, mutate that frame. -/
def programaLimpiarProyectos : List (OpTabla TablaProyectos) :=
  [OpTabla.copiar, OpTabla.mutar prepararProyectosEnTabla,
    OpTabla.reasignar explotarProyectosEnTabla,
    OpTabla.mutar terminarProyectosEnTabla]

/-- The states of the microzone table across `calcular_indicadores` (the
error value models the pandas call aborting on a raised exception). -/
inductive TablaMicrozonas where
  | integrada : List FilaMicrozona → TablaMicrozonas
  | conIndicadores : Except String (List FilaIndicadores) → TablaMicrozonas
deriving Inhabited

/-- The column assignments of `calcular_indicadores` on its working copy. -/
def calcularEnTabla : TablaMicrozonas → TablaMicrozonas
  | TablaMicrozonas.integrada t => TablaMicrozonas.conIndicadores (calcularIndicadores t)
  | otra => otra

/-- `calcular_indicadores` as a heap program: copy (line 116), then mutate
only the copy. -/
def programaCalcularIndicadores : List (OpTabla TablaMicrozonas) :=
  [OpTabla.copiar, OpTabla.mutar calcularEnTabla]

/-- The states of the reloaded microzone table across `anotar_indicadores`. -/
inductive TablaAnotaciones where
  | entrada : List FilaMicrozonaApi → TablaAnotaciones
  | anotada : List FilaAnotada → TablaAnotaciones
deriving Inhabited

/-- The column assignments of `anotar_indicadores` on its working copy
(both the empty-table branch and the main branch copy first and then only
assign new columns on the copy). -/
def anotarEnTabla (criterios : CriteriosCriticidad) :
    TablaAnotaciones → TablaAnotaciones
  | TablaAnotaciones.entrada t => TablaAnotaciones.anotada (anotarIndicadores t criterios)
  | otra => otra

/-- `anotar_indicadores` as a heap program: copy (lines 142/148), then
mutate only the copy. -/
def programaAnotarIndicadores (criterios : CriteriosCriticidad) :
    List (OpTabla TablaAnotaciones) :=
  [OpTabla.copiar, OpTabla.mutar (anotarEnTabla criterios)]

/-- Heap cells other than the working one are never written. -/
theorem paso_preserva_otras {τ : Type} [Inhabited τ] (ops : List (OpTabla τ)) :
    ∀ (heap : List τ) (w r : Nat), r < heap.length → r ≠ w →
      ((ops.foldl pasoTabla (heap, w)).1)[r]? = heap[r]? := by
  induction ops with
  | nil =>
    intro heap w r _ _
    rfl
  | cons op resto ih =>
    intro heap w r hr hw
    rw [List.foldl_cons]
    cases op with
    | copiar =>
      have h := ih (heap ++ [(heap[w]?).getD default]) heap.length r
        (by rw [List.length_append]; omega) (Nat.ne_of_lt hr)
      rw [show pasoTabla (heap, w) OpTabla.copiar
        = (heap ++ [(heap[w]?).getD default], heap.length) from rfl]
      rw [h]
      exact List.getElem?_append_left hr
    | mutar f =>
      have h := ih (heap.set w (f ((heap[w]?).getD default))) w r
        (by rw [List.length_set]; exact hr) hw
      rw [show pasoTabla (heap, w) (OpTabla.mutar f)
        = (heap.set w (f ((heap[w]?).getD default)), w) from rfl]
      rw [h]
      exact List.getElem?_set_ne (fun he => hw he.symm)
    | reasignar f =>
      have h := ih (heap ++ [f ((heap[w]?).getD default)]) heap.length r
        (by rw [List.length_append]; omega) (Nat.ne_of_lt hr)
      rw [show pasoTabla (heap, w) (OpTabla.reasignar f)
        = (heap ++ [f ((heap[w]?).getD default)], heap.length) from rfl]
      rw [h]
      exact List.getElem?_append_left hr

/-- A stage whose first operation is the copy leaves the caller's table
untouched. -/
theorem copiar_primero_preserva {τ : Type} [Inhabited τ] (resto : List (OpTabla τ))
    (heap : List τ) (r : Nat) (hr : r < heap.length) :
    (correrPrograma (OpTabla.copiar :: resto) heap r).1[r]? = heap[r]? := by
  unfold correrPrograma
  rw [List.foldl_cons]
  rw [show pasoTabla (heap, r) OpTabla.copiar
    = (heap ++ [(heap[r]?).getD default], heap.length) from rfl]
  rw [paso_preserva_otras resto (heap ++ [(heap[r]?).getD default]) heap.length r
    (by rw [List.length_append]; omega) (Nat.ne_of_lt hr)]
  exact List.getElem?_append_left hr

/-- C10: each of the four stage programs — `limpiar_conexiones`,
`limpiar_proyectos`, `calcular_indicadores`, `anotar_indicadores` — builds
its result on a copy: after running the stage, the caller's table cell
holds exactly the value it held before the call. -/
theorem etapas_no_mutan_entrada :
    (∀ (heap : List TablaConexiones) (r : Nat), r < heap.length →
      (correrPrograma programaLimpiarConexiones heap r).1[r]? = heap[r]?) ∧
    (∀ (heap : List TablaProyectos) (r : Nat), r < heap.length →
      (correrPrograma programaLimpiarProyectos heap r).1[r]? = heap[r]?) ∧
    (∀ (heap : List TablaMicrozonas) (r : Nat), r < heap.length →
      (correrPrograma programaCalcularIndicadores heap r).1[r]? = heap[r]?) ∧
    (∀ (criterios : CriteriosCriticidad) (heap : List TablaAnotaciones) (r : Nat),
      r < heap.length →
      (correrPrograma (programaAnotarIndicadores criterios) heap r).1[r]? = heap[r]?) :=
  ⟨fun heap r hr => copiar_primero_preserva _ heap r hr,
    fun heap r hr => copiar_primero_preserva _ heap r hr,
    fun heap r hr => copiar_primero_preserva _ heap r hr,
    fun _ heap r hr => copiar_primero_preserva _ heap r hr⟩

/-- Witness for C10: each stage program run on a one-cell heap leaves the
input cell's content intact. -/
theorem etapas_no_mutan_entrada_witness :
    (correrPrograma programaLimpiarConexiones [TablaConexiones.cruda []] 0).1[0]?
      = some (TablaConexiones.cruda []) ∧
    (correrPrograma programaLimpiarProyectos [TablaProyectos.cruda []] 0).1[0]?
      = some (TablaProyectos.cruda []) ∧
    (correrPrograma programaCalcularIndicadores [TablaMicrozonas.integrada []] 0).1[0]?
      = some (TablaMicrozonas.integrada []) ∧
    (correrPrograma (programaAnotarIndicadores criteriosPorDefecto)
        [TablaAnotaciones.entrada []] 0).1[0]?
      = some (TablaAnotaciones.entrada []) := by
  refine ⟨?_, ?_, ?_, ?_⟩
  · rw [etapas_no_mutan_entrada.1 [TablaConexiones.cruda []] 0 (by simp)]
    rfl
  · rw [etapas_no_mutan_entrada.2.1 [TablaProyectos.cruda []] 0 (by simp)]
    rfl
  · rw [etapas_no_mutan_entrada.2.2.1 [TablaMicrozonas.integrada []] 0 (by simp)]
    rfl
  · rw [etapas_no_mutan_entrada.2.2.2 criteriosPorDefecto
      [TablaAnotaciones.entrada []] 0 (by simp)]
    rfl

end Sedapal
